import Mathlib

/-!
Verification development for the easy-db configuration-driven database
connection facade.  The Python sources under `database/` and `models/` are
shallowly embedded below: pure string manipulation becomes Lean functions on
`String` / `List Char`, Python exceptions become an explicit `PyErr` sum
carried in `Except`, Python `None` becomes `Option`, and Python dicts become
association lists that keep insertion order.  External effects (the actual
DBAPI connection, result objects, commit) are abstracted as oracle records so
that the control flow of `_execute_query` can be analysed faithfully.

Modelling conventions:
* character classes follow the ASCII fragment of Python's `re` module
  (`\s` = space, tab, LF, CR, VT, FF; `\w` = letters, digits, underscore;
  `\d` = ASCII digits); the repository only ever feeds SQL text through them;
* `str.strip()` is modelled by `pyStrip`, removing the same whitespace set on
  both ends;
* `str(n)` on integers is modelled by `intStr` (decimal digits, `-` sign);
* Python truthiness is modelled per type where the code relies on it.
-/

/-- Python exception values that the embedded code can raise or return. -/
inductive PyErr where
  | valueError (msg : String)
  | typeError (msg : String)
  | keyError (msg : String)
  | attributeError (msg : String)
  | stopIteration
  | validationError (msgs : List String)
  | modelValidationErrors (errs : List (String × List String))
  deriving DecidableEq, Repr

/-- ASCII whitespace recognised by Python's `\s` and `str.strip()`. -/
def isSpaceChar (c : Char) : Bool :=
  c = ' ' || c = '\t' || c = '\n' || c = '\r' || c = '\x0b' || c = '\x0c'

/-- Word characters of Python's `\w` / the `\b` boundary (ASCII fragment). -/
def isWordChar (c : Char) : Bool :=
  c.isAlpha || c.isDigit || c = '_'

/-- Decimal digit list of a natural number, fuel-indexed so that it reduces. -/
def natDigitsF : Nat → Nat → List Char
  | 0, _ => []
  | fuel + 1, n =>
    if n < 10 then [Nat.digitChar n]
    else natDigitsF fuel (n / 10) ++ [Nat.digitChar (n % 10)]

/-- Decimal digit list of a natural number (model of Python `str` on `int`). -/
def natDigits (n : Nat) : List Char := natDigitsF (n + 1) n

/-- Model of Python `str(i)` for an integer `i`. -/
def intStr (i : Int) : String :=
  if i < 0 then "-" ++ ⟨natDigits i.natAbs⟩ else ⟨natDigits i.natAbs⟩

/-- Removal of trailing `str.strip` whitespace from a character list. -/
def stripTrailL (l : List Char) : List Char :=
  (l.reverse.dropWhile isSpaceChar).reverse

/-- Removal of leading and trailing whitespace from a character list. -/
def stripL (l : List Char) : List Char :=
  stripTrailL (l.dropWhile isSpaceChar)

/-- Model of Python `str.strip()` (no arguments). -/
def pyStrip (s : String) : String := ⟨stripL s.data⟩

/-! ### The paging-detection regular expressions of `db_utils.has_paging`

The five patterns of the source are

* MySQL      `\bLIMIT\s+(\d+)\s*(?:OFFSET\s+(\d+))?\b`
* PostgreSQL `\bLIMIT\s+(\d+)\b(?:\s+OFFSET\s+(\d+)\b)?`
* SQL Server `\bTOP\s+(\d+)\b(?:\s+OFFSET\s+(\d+)\b)?`
* Oracle     `\bROWNUM\s*\b(?:\s*\bBETWEEN\s*\d+\s*AND\s*\d+\b|\s*\b<=?\s*\d+\b)`
* SQLite     `\bLIMIT\s+(\d+)\s*(?:OFFSET\s+(\d+))?\b`

searched with `re.search(…, re.IGNORECASE)`.  They are embedded as Boolean
matchers on `List Char` whose existence-of-a-match semantics agrees with the
backtracking semantics of the pattern (quantifier choices that can never
matter for a Boolean match are fixed to the maximal munch).  The zero-width
`\b` assertions are resolved against the concrete neighbouring character
classes of each pattern.
-/

/-- Case-insensitive literal match: consumes `kw` (given lowercase) and
returns the remaining input, mirroring a literal regex atom under
`re.IGNORECASE`. -/
def pLit : List Char → List Char → Option (List Char)
  | [], s => some s
  | _ :: _, [] => none
  | k :: ks, c :: cs => if c.toLower = k then pLit ks cs else none

/-- Maximal-munch `\s+`: at least one whitespace character. -/
def pWs1 : List Char → Option (List Char)
  | [] => none
  | c :: cs => if isSpaceChar c then some (cs.dropWhile isSpaceChar) else none

/-- Maximal-munch `\d+`: at least one digit. -/
def pDigits1 : List Char → Option (List Char)
  | [] => none
  | c :: cs => if c.isDigit then some (cs.dropWhile Char.isDigit) else none

/-- Maximal-munch `\s*`. -/
def skipWs (s : List Char) : List Char := s.dropWhile isSpaceChar

/-- The `\b` assertion placed after a word character: satisfied at end of
input or before a non-word character. -/
def wordBoundaryEnd : List Char → Bool
  | [] => true
  | c :: _ => !isWordChar c

/-- The `\b` assertion before a word character, given the previous character
(`none` at the start of the input). -/
def bdyPrev : Option Char → Bool
  | none => true
  | some c => !isWordChar c

def limitKw : List Char := ['l', 'i', 'm', 'i', 't']

def topKw : List Char := ['t', 'o', 'p']

def offsetKw : List Char := ['o', 'f', 'f', 's', 'e', 't']

def rownumKw : List Char := ['r', 'o', 'w', 'n', 'u', 'm']

def betweenKw : List Char := ['b', 'e', 't', 'w', 'e', 'e', 'n']

def andKw : List Char := ['a', 'n', 'd']

/-- Matcher for the optional `\s*OFFSET\s+\d+\b` continuation of the
MySQL/SQLite pattern. -/
def offsetTail (s : List Char) : Bool :=
  match pLit offsetKw (skipWs s) with
  | none => false
  | some t =>
    match pWs1 t with
    | none => false
    | some t2 =>
      match pDigits1 t2 with
      | none => false
      | some t3 => wordBoundaryEnd t3

/-- Matcher for `\bLIMIT\s+(\d+)\s*(?:OFFSET\s+(\d+))?\b` at the current
position (the initial `\b` is checked by the search driver). -/
def coreLimitOffset (s : List Char) : Bool :=
  match pLit limitKw s with
  | none => false
  | some s1 =>
    match pWs1 s1 with
    | none => false
    | some s2 =>
      match pDigits1 s2 with
      | none => false
      | some s3 => wordBoundaryEnd s3 || offsetTail s3

/-- Matcher for `\bKW\s+(\d+)\b(?:\s+OFFSET\s+(\d+)\b)?` at the current
position; the optional group cannot affect whether a match exists. -/
def coreKwNum (kw : List Char) (s : List Char) : Bool :=
  match pLit kw s with
  | none => false
  | some s1 =>
    match pWs1 s1 with
    | none => false
    | some s2 =>
      match pDigits1 s2 with
      | none => false
      | some s3 => wordBoundaryEnd s3

/-- Matcher for `\s*\d+\b` (used after `<` / `<=` in the Oracle pattern). -/
def numTail (s : List Char) : Bool :=
  match pDigits1 (skipWs s) with
  | none => false
  | some t => wordBoundaryEnd t

/-- Matcher for the `\s*\b<=?\s*\d+\b` alternative after `ROWNUM`: the two
interior `\b` assertions force the `<` to follow `ROWNUM` immediately. -/
def rownumLt (s : List Char) : Bool :=
  match s with
  | c :: rest =>
    if c = '<' then
      numTail rest ||
        (match rest with
         | c2 :: rest2 => if c2 = '=' then numTail rest2 else false
         | [] => false)
    else false
  | [] => false

/-- Matcher for the `\s*\bBETWEEN\s*\d+\s*AND\s*\d+\b` alternative after
`ROWNUM`: the interior `\b` assertions force at least one whitespace. -/
def rownumBetween (s : List Char) : Bool :=
  match s with
  | c :: _ =>
    if isSpaceChar c then
      match pLit betweenKw (skipWs s) with
      | none => false
      | some t =>
        match pDigits1 (skipWs t) with
        | none => false
        | some t2 =>
          match pLit andKw (skipWs t2) with
          | none => false
          | some t3 =>
            match pDigits1 (skipWs t3) with
            | none => false
            | some t4 => wordBoundaryEnd t4
    else false
  | [] => false

/-- Matcher for the Oracle pattern at the current position. -/
def coreRownum (s : List Char) : Bool :=
  match pLit rownumKw s with
  | none => false
  | some r => rownumBetween r || rownumLt r

/-- Search driver of `re.search`: tries the core matcher at every position,
tracking the previous character for the leading `\b` assertion. -/
def reSearch (core : List Char → Bool) : Option Char → List Char → Bool
  | prev, [] => bdyPrev prev && core []
  | prev, c :: cs => (bdyPrev prev && core (c :: cs)) || reSearch core (some c) cs

/-- Embedding of `db_utils.has_paging`: true when any of the five dialect
paging patterns matches somewhere in the query. -/
def has_paging (sql : String) : Bool :=
  reSearch coreLimitOffset none sql.data ||
  reSearch (coreKwNum limitKw) none sql.data ||
  reSearch (coreKwNum topKw) none sql.data ||
  reSearch coreRownum none sql.data ||
  reSearch coreLimitOffset none sql.data

example : has_paging "SELECT * FROM t LIMIT 10" = true := by decide
example : has_paging "SELECT * FROM t LIMIT 10 OFFSET 5" = true := by decide
example : has_paging "SELECT TOP 3 * FROM t" = true := by decide
example : has_paging "SELECT * FROM t WHERE ROWNUM<=5" = true := by decide
example : has_paging "SELECT * FROM t" = false := by decide
example : has_paging "SELECT 1" = false := by decide
example : pyStrip "  SELECT 1  " = "SELECT 1" := by decide
example : intStr 123 = "123" := by decide
example : intStr (-40) = "-40" := by decide

/-! ### Dialects accepted by the configuration schema

`models/db_model.DatabaseModel.dialect` is
`Literal["mysql", "mariadb", "mssql", "postgresql", "oracle", "sqlite"]`;
the validated value is one of these strings. -/

/-- The dialect literals accepted by the single-database schema. -/
inductive Dialect where
  | mysql | mariadb | mssql | postgresql | oracle | sqlite
  deriving DecidableEq, Repr

/-- The string stored in the configuration for each schema dialect. -/
def Dialect.str : Dialect → String
  | .mysql => "mysql"
  | .mariadb => "mariadb"
  | .mssql => "mssql"
  | .postgresql => "postgresql"
  | .oracle => "oracle"
  | .sqlite => "sqlite"

/-! ### `BaseDatabaseConnection.page` and `offset` -/

/-- Result of a Python method that can `return` an exception object instead
of raising it: `str` is a normal string result, `exc` is an exception value
returned (not raised). -/
inductive PageRet where
  | str (s : String)
  | exc (e : PyErr)
  deriving DecidableEq, Repr

/-- Embedding of `BaseDatabaseConnection.page`.  `dialect` and
`self_page_size` are the instance attributes read by the method; a raised
exception is `Except.error`, while the `page_size == 0` branch returns a
`ValueError` instance as a value (`PageRet.exc`).  The Python resolution
`page_size = page_size if page_size else self.page_size` treats both `None`
and `0` as falsy. -/
def page (dialect : String) (self_page_size : Int) (query : String)
    (offset : Int) (page_size : Option Int) : Except PyErr PageRet :=
  let q := pyStrip query
  if has_paging q then .ok (.str q)
  else
    let ps : Int :=
      match page_size with
      | some n => if n = 0 then self_page_size else n
      | none => self_page_size
    if ps = 0 then
      .ok (.exc (.valueError "Paging is enabled but page_size is missing or set to 0"))
    else if dialect = "mysql" ∨ dialect = "postgres" ∨ dialect = "sqlite" then
      .ok (.str (q ++ " LIMIT " ++ intStr ps ++ " OFFSET " ++ intStr offset))
    else if dialect = "sql server" ∨ dialect = "oracle" then
      .ok (.str (q ++ " OFFSET " ++ intStr offset ++ " ROWS FETCH NEXT " ++ intStr ps ++ " ROWS ONLY"))
    else
      .error (.valueError "Unsupported database dialect for paging.")

/-- Embedding of `BaseDatabaseConnection.offset`. -/
def offset_query (dialect : String) (query : String) (offset : Int) :
    Except PyErr String :=
  if dialect = "mysql" ∨ dialect = "postgres" ∨ dialect = "sqlite" then
    .ok (query ++ " LIMIT ALL OFFSET " ++ intStr offset)
  else if dialect = "sql server" ∨ dialect = "oracle" then
    .ok (query ++ " OFFSET " ++ intStr offset ++ " ROWS FETCH NEXT ALL ROWS ONLY")
  else
    .error (.valueError "Unsupported database dialect for paging.")

/-! ### `BaseDatabaseConnection.execute_sp` -/

/-- Embedding of the `', '.join(... for key in params) if params else ''`
argument builder of `execute_sp`; `params` carries the ordered key list of
the parameter dict, `none` models Python `None` (both `None` and an empty
dict are falsy). -/
def sp_args (params : Option (List String)) (f : String → String) : String :=
  match params with
  | some ks => if ks = [] then "" else String.intercalate ", " (ks.map f)
  | none => ""

/-- Embedding of `BaseDatabaseConnection.execute_sp` up to the point where
the built SQL string is handed to `_execute_query`: the returned string is
exactly that SQL. -/
def execute_sp_sql (dialect : String) (procedure_name : String)
    (params : Option (List String)) : Except PyErr String :=
  if dialect = "sqlite" then
    .error (.valueError "SQLite does not support stored procedures.")
  else if dialect = "postgresql" ∨ dialect = "mysql" then
    .ok ("CALL " ++ procedure_name ++ "(" ++ sp_args params (fun k => ":" ++ k) ++ ")")
  else if dialect = "mssql" then
    .ok ("EXEC " ++ procedure_name ++ " " ++ sp_args params (fun k => "@" ++ k ++ "=:" ++ k))
  else if dialect = "oracle" then
    .ok ("BEGIN " ++ procedure_name ++ "(" ++ sp_args params (fun k => ":" ++ k) ++ "); END;")
  else
    .error (.valueError "Unsupported database dialect")

/-! ### `db_utils.sanitize` -/

/-- The `params` argument of `sanitize` / `_execute_query`: a dict, a tuple
of key-value pairs, or `None`. -/
inductive SqlParams (V : Type) where
  | noneP
  | dict (entries : List (String × V))
  | tup (entries : List (String × V))

/-- A value passed as a sanitizer: either a Python callable or some
non-callable object. -/
inductive SanVal (V : Type) where
  | callable (f : V → V)
  | notCallable

/-- The `sanitizers` argument: a single value or a list. -/
inductive Sanitizers (V : Type) where
  | one (s : SanVal V)
  | many (ss : List (SanVal V))

/-- Python truthiness of the `params` collection. -/
def SqlParams.truthy {V : Type} : SqlParams V → Bool
  | .noneP => false
  | .dict es => !es.isEmpty
  | .tup es => !es.isEmpty

def SanVal.isCallable {V : Type} : SanVal V → Bool
  | .callable _ => true
  | .notCallable => false

/-- Application of one sanitizer to a value (`value = sanitizer(value)`);
calling a non-callable raises `TypeError`. -/
def SanVal.apply {V : Type} : SanVal V → V → Except PyErr V
  | .callable f, v => .ok (f v)
  | .notCallable, _ => .error (.typeError "object is not callable")

/-- Sequential application of the sanitizer argument to one value. -/
def applySanitizers {V : Type} (sans : Sanitizers V) (v : V) : Except PyErr V :=
  match sans with
  | .one s => s.apply v
  | .many ss => ss.foldlM (fun acc s => s.apply acc) v

/-- The per-entry loop of `sanitize`, preserving dict order. -/
def sanitizeLoop {V : Type} (sans : Sanitizers V) :
    List (String × V) → Except PyErr (List (String × V))
  | [] => .ok []
  | (k, v) :: rest => do
    let v' ← applySanitizers sans v
    let rest' ← sanitizeLoop sans rest
    .ok ((k, v') :: rest')

/-- Insertion into a Python dict built by `dict(pairs)`: a repeated key keeps
its original position and takes the later value. -/
def dictInsert {V : Type} (es : List (String × V)) (kv : String × V) :
    List (String × V) :=
  if es.any (fun p => p.1 = kv.1) then
    es.map (fun p => if p.1 = kv.1 then (p.1, kv.2) else p)
  else es ++ [kv]

/-- Model of Python `dict(pairs)`. -/
def dictOfPairs {V : Type} (es : List (String × V)) : List (String × V) :=
  es.foldl dictInsert []

/-- Embedding of `db_utils.sanitize`.  The source's first statement is
`if params: return {}` — any truthy (non-empty) parameter collection returns
the empty dict immediately; the conversion and sanitising loop below it only
ever run for falsy `params`. -/
def sanitize {V : Type} (params : SqlParams V) (sanitizers : Sanitizers V) :
    Except PyErr (List (String × V)) :=
  if params.truthy then .ok []
  else
    let check : Except PyErr Unit :=
      match sanitizers with
      | .many ss =>
        if ss.all SanVal.isCallable then .ok ()
        else .error (.typeError "Sanitizer isn't callable")
      | .one s =>
        if s.isCallable then .ok ()
        else .error (.typeError "Sanitizer isn't callable")
    check >>= fun _ =>
      match params with
      | .noneP => .error (.attributeError "'NoneType' object has no attribute 'items'")
      | .dict es => sanitizeLoop sanitizers es
      | .tup es => sanitizeLoop sanitizers (dictOfPairs es)

/-! ### `db_utils.get_default_db_config` and the `__init__` selection chain -/

/-- A Python instance attribute that may or may not have been assigned. -/
inductive Attr (α : Type) where
  | unset
  | set (a : α)

/-- Dump of a validated `DatabaseModel` as read back by `db_core` (the
fields relevant to the embedded operations; `default` keeps its
`bool | None` shape so Python truthiness is `= some true`). -/
structure DbConf where
  description : Option String := none
  default : Option Bool := some false
  dialect : Dialect := .sqlite
  uri : Option String := none
  path : Option String := none
  deriving DecidableEq, Repr

/-- Embedding of `db_utils.get_default_db_config`: the first entry whose
`default` value is truthy, or `None`. -/
def get_default_db_config (config : List (String × DbConf)) : Option DbConf :=
  (config.find? (fun p => p.2.default = some true)).map (fun p => p.2)

/-- The value `__init__` leaves in `_config` after the multi-database
branch: either a configuration dict, or — via `next(iter(_config.items()))`
— a `(name, configuration)` tuple. -/
inductive ActiveCfg where
  | conf (c : DbConf)
  | item (name : String) (c : DbConf)
  deriving DecidableEq, Repr

/-- Embedding of the multi-database selection chain of
`BaseDatabaseConnection.__init__` (lines 169-182).  With a non-`None`
`name`, the source subscripts the literal key `"name"`
(`_config = _config["name"]`), and the surrounding `except KeyError`
re-raises a `KeyError` with a fixed message.  Without a name it falls
through `get_default_db_config`, the class-level defaults, and finally
`next(iter(_config.items()))`, which yields the first key-value pair (and
raises `StopIteration` on an empty dict, which `except KeyError` does not
catch). -/
def select_multi_config (config : List (String × DbConf)) (name : Option String)
    (default_config : Option DbConf) (default_config_name : Option String) :
    Except PyErr ActiveCfg :=
  match name with
  | some _ =>
    match config.find? (fun p => p.1 = "name") with
    | some p => .ok (.conf p.2)
    | none => .error (.keyError "An invalid database name was supplied")
  | none =>
    match get_default_db_config config with
    | some c => .ok (.conf c)
    | none =>
      match default_config with
      | some c => .ok (.conf c)
      | none =>
        match default_config_name with
        | some dn =>
          match config.find? (fun p => p.1 = dn) with
          | some p => .ok (.conf p.2)
          | none => .error (.keyError "An invalid database name was supplied")
        | none =>
          match config with
          | [] => .error .stopIteration
          | p :: _ => .ok (.item p.1 p.2)

/-- Embedding of the attribute-setting step that follows the selection:
`for key, value in _config.items()` succeeds on a dict but raises
`AttributeError` when `_config` is the `(name, configuration)` tuple
produced by `next(iter(_config.items()))`. -/
def set_active_config (a : ActiveCfg) : Except PyErr DbConf :=
  match a with
  | .conf c => .ok c
  | .item _ _ => .error (.attributeError "'tuple' object has no attribute 'items'")

/-- Selection followed by attribute assignment, as `__init__` runs them. -/
def init_active_config (config : List (String × DbConf)) (name : Option String)
    (default_config : Option DbConf) (default_config_name : Option String) :
    Except PyErr DbConf :=
  select_multi_config config name default_config default_config_name >>= set_active_config

/-! ### `BaseDatabaseConnection.fetch` -/

/-- The `fetch` argument as seen at runtime (`isinstance(fetch, int)`). -/
inductive FetchArg where
  | int (n : Int)
  | notInt
  deriving DecidableEq, Repr

/-- The result-object method `fetch` dispatches to. -/
inductive FetchAction where
  | fetchall
  | fetchone
  | fetchmany (n : Int)
  deriving DecidableEq, Repr

/-- Embedding of `BaseDatabaseConnection.fetch` for a result-object type
`R`.  `result` is the (truthy-or-`None`) argument, `stored` the instance's
`result_object` attribute — `Attr.unset` on a fresh instance, since
`__init__` only assigns `self.result_obj` (note the differing name).  The
returned pair is the resolved result object and the method dispatched to. -/
def fetch {R : Type} (result : Option R) (stored : Attr (Option R))
    (f : FetchArg) : Except PyErr (R × FetchAction) :=
  let resolved : Except PyErr (Option R) :=
    match result with
    | some r => .ok (some r)
    | none =>
      match stored with
      | .unset => .error (.attributeError "'SqlAlchemyConnection' object has no attribute 'result_object'")
      | .set v => .ok v
  resolved >>= fun r? =>
    match r? with
    | none => .error (.valueError "No valid result object found.")
    | some r =>
      match f with
      | .int n =>
        .ok (r, if n = 0 then .fetchall else if n = 1 then .fetchone else .fetchmany n)
      | .notInt => .error (.valueError "Fetch value must be an int. Use 0 for all rows")

/-! ### `db_utils.is_data_manipulation_query` -/

/-- Literal list-prefix test (model of `str.startswith`). -/
def startsWithL : List Char → List Char → Bool
  | [], _ => true
  | _ :: _, [] => false
  | p :: ps, c :: cs => p = c && startsWithL ps cs

/-- Embedding of `db_utils.is_data_manipulation_query`. -/
def is_data_manipulation_query (statement : String) : Bool :=
  let s := (stripL statement.data).map Char.toLower
  startsWithL "insert".data s || startsWithL "update".data s || startsWithL "delete".data s

example : is_data_manipulation_query "  INSERT INTO t VALUES (1)" = true := by decide
example : is_data_manipulation_query "SELECT 1" = false := by decide

/-! ### `models/db_model.py` — configuration validation

Python configuration values are embedded as `PyVal`; pydantic's machinery is
modelled as follows: a `mode="before"` model validator that raises
`ValueError` surfaces as `PyErr.validationError`, top-level field parsing
collects one message per failing field, and type checks accept values of the
annotated type (or `None` for optional fields) — pydantic's lax coercions
from strings/numbers, which the repository never relies on, are not
modelled.  Extra keys are ignored, as in pydantic's default config. -/

/-- Python configuration values (the subset configurations are built from). -/
inductive PyVal where
  | vNone
  | vBool (b : Bool)
  | vInt (n : Int)
  | vStr (s : String)
  | vDict (entries : List (String × PyVal))

/-- Python truthiness of a configuration value. -/
def PyVal.truthy : PyVal → Bool
  | .vNone => false
  | .vBool b => b
  | .vInt n => n ≠ 0
  | .vStr s => s ≠ ""
  | .vDict es => !es.isEmpty

def PyVal.isDict : PyVal → Bool
  | .vDict _ => true
  | _ => false

/-- First value stored under a key of a dict-shaped value. -/
def lookupV (values : List (String × PyVal)) (k : String) : Option PyVal :=
  (values.find? (fun p => p.1 = k)).map (fun p => p.2)

/-- `values.get(k)` on an association list (default `None`). -/
def getV (values : List (String × PyVal)) (k : String) : PyVal :=
  (lookupV values k).getD .vNone

/-- `values.get(k, d)` on an association list. -/
def getVD (values : List (String × PyVal)) (k : String) (d : PyVal) : PyVal :=
  (lookupV values k).getD d

/-- `v.get(k)` on an arbitrary value: raises `AttributeError` unless `v` is
a dict. -/
def pyGet (v : PyVal) (k : String) : Except PyErr PyVal :=
  match v with
  | .vDict es => .ok (getV es k)
  | _ => .error (.attributeError "object has no attribute 'get'")

/-- Python `v == 0` for a configuration value (`False == 0` holds). -/
def pyEqZero : PyVal → Bool
  | .vInt n => n = 0
  | .vBool b => !b
  | _ => false

/-- Embedding of the `field_validation` model validator of `DatabaseModel`
(`mode="before"`), accumulating the `ValueError` messages it joins, in
source order: paging, sqlite path / connection information, ODBC driver. -/
def field_validation (values : List (String × PyVal)) :
    Except PyErr (List (String × PyVal)) := do
  let dialect := getV values "dialect"
  let uri := getV values "uri"
  let params := getVD values "connection_params" (.vDict [])
  let use_odbc := getV values "use_odbc"
  let driver0 := getV values "driver"
  let paging := getV values "paging"
  let pagingErrs : List String ←
    match paging with
    | .vNone => pure []
    | p => do
      let en ← pyGet p "enabled"
      if en.truthy then
        let ps ← pyGet p "page_size"
        match ps with
        | .vNone => pure ["Paging is enabled but page_size is missing or set to 0"]
        | v =>
          if pyEqZero v then pure ["Paging is enabled but page_size is missing or set to 0"]
          else pure []
      else pure []
  let driver : PyVal ←
    if !driver0.truthy then
      if params.truthy then pyGet params "driver" else pure .vNone
    else pure driver0
  let dialectErrs : List String ←
    match dialect with
    | .vStr "sqlite" =>
      if !(getV values "path").truthy then
        pure ["`path` is required when `dialect` is `sqlite`."]
      else pure []
    | _ => do
      let e1 :=
        if !(uri.truthy || params.truthy) then
          ["Either `uri` or `connection_params` must be provided for non-sqlite dialects."]
        else []
      let e2 ←
        if !uri.truthy then do
          let u ← pyGet params "user"
          let h ← pyGet params "host"
          if !u.truthy && !h.truthy then
            pure ["Connection parameter information is missing. Provide a uri or complete connection parameters."]
          else pure []
        else pure []
      pure (e1 ++ e2)
  let odbcErrs : List String :=
    if use_odbc.truthy && !driver.truthy then
      ["Driver is required when using ODBC connections."]
    else []
  let errors := pagingErrs ++ dialectErrs ++ odbcErrs
  if errors = [] then pure values else .error (.validationError errors)

/-- Parsed `ConnectionParams` submodel (the `driver` field has no default in
the source, so its key is required). -/
structure ConnParams where
  driver : Option String := none
  host : Option String := none
  port : Option Int := none
  username : Option String := none
  password : Option String := none
  options : Option (List (String × String)) := none
  deriving DecidableEq, Repr

/-- Parsed `Paging` submodel. -/
structure PagingConf where
  enabled : Option Bool := some false
  page_size : Option Int := none
  min_page_size : Option Int := some 0
  deriving DecidableEq, Repr

/-- The `fetch_return` literal. -/
inductive FetchReturn where
  | data
  | tuple
  | object
  deriving DecidableEq, Repr

/-- Parsed `DatabaseModel` (field defaults as in the source). -/
structure DatabaseModelParsed where
  description : Option String := none
  default : Option Bool := some false
  dialect : Dialect
  use_odbc : Option Bool := some false
  uri : Option String := none
  connection_params : Option ConnParams := none
  auto_commit : Option Bool := some false
  path : Option String := none
  paging : Option PagingConf := none
  fetch_return : FetchReturn := .data
  deriving DecidableEq, Repr

def errOf {α : Type} : Except String α → List String
  | .ok _ => []
  | .error e => [e]

def parseOptStrField (values : List (String × PyVal)) (k : String) :
    Except String (Option String) :=
  match lookupV values k with
  | none => .ok none
  | some .vNone => .ok none
  | some (.vStr s) => .ok (some s)
  | some _ => .error (k ++ ": string expected")

def parseOptBoolField (values : List (String × PyVal)) (k : String)
    (dflt : Option Bool) : Except String (Option Bool) :=
  match lookupV values k with
  | none => .ok dflt
  | some .vNone => .ok none
  | some (.vBool b) => .ok (some b)
  | some _ => .error (k ++ ": boolean expected")

def parseOptIntField (values : List (String × PyVal)) (k : String)
    (dflt : Option Int) : Except String (Option Int) :=
  match lookupV values k with
  | none => .ok dflt
  | some .vNone => .ok none
  | some (.vInt n) => .ok (some n)
  | some _ => .error (k ++ ": integer expected")

def parseDialectField (values : List (String × PyVal)) :
    Except String Dialect :=
  match lookupV values "dialect" with
  | none => .error "dialect: field required"
  | some (.vStr "mysql") => .ok .mysql
  | some (.vStr "mariadb") => .ok .mariadb
  | some (.vStr "mssql") => .ok .mssql
  | some (.vStr "postgresql") => .ok .postgresql
  | some (.vStr "oracle") => .ok .oracle
  | some (.vStr "sqlite") => .ok .sqlite
  | some _ => .error "dialect: invalid literal"

def parseFetchReturnField (values : List (String × PyVal)) :
    Except String FetchReturn :=
  match lookupV values "fetch_return" with
  | none => .ok .data
  | some (.vStr "data") => .ok .data
  | some (.vStr "tuple") => .ok .tuple
  | some (.vStr "object") => .ok .object
  | some _ => .error "fetch_return: invalid literal"

def parseStrStrDict : List (String × PyVal) → Except String (List (String × String))
  | [] => .ok []
  | (k, .vStr s) :: rest => (parseStrStrDict rest).map (fun r => (k, s) :: r)
  | (_, _) :: _ => .error "options: string values expected"

/-- Parse of the `ConnectionParams` submodel; sub-field errors are folded
into a single message. -/
def parseConnParamsField (values : List (String × PyVal)) :
    Except String (Option ConnParams) :=
  match lookupV values "connection_params" with
  | none => .ok none
  | some .vNone => .ok none
  | some (.vDict es) =>
    let driverR : Except String (Option String) :=
      match lookupV es "driver" with
      | none => .error "connection_params.driver: field required"
      | some .vNone => .ok none
      | some (.vStr s) => .ok (some s)
      | some _ => .error "connection_params.driver: string expected"
    let optionsR : Except String (Option (List (String × String))) :=
      match lookupV es "options" with
      | none => .ok none
      | some .vNone => .ok none
      | some (.vDict os) => (parseStrStrDict os).map some
      | some _ => .error "connection_params.options: dict expected"
    match driverR, parseOptStrField es "host", parseOptIntField es "port" none,
        parseOptStrField es "username", parseOptStrField es "password", optionsR with
    | .ok d, .ok h, .ok p, .ok u, .ok pw, .ok o =>
      .ok (some { driver := d, host := h, port := p, username := u, password := pw, options := o })
    | _, _, _, _, _, _ => .error "connection_params: invalid value"
  | some _ => .error "connection_params: dict expected"

/-- Parse of the `Paging` submodel. -/
def parsePagingField (values : List (String × PyVal)) :
    Except String (Option PagingConf) :=
  match lookupV values "paging" with
  | none => .ok none
  | some .vNone => .ok none
  | some (.vDict es) =>
    match parseOptBoolField es "enabled" (some false),
        parseOptIntField es "page_size" none,
        parseOptIntField es "min_page_size" (some 0) with
    | .ok e, .ok p, .ok m => .ok (some { enabled := e, page_size := p, min_page_size := m })
    | _, _, _ => .error "paging: invalid value"
  | some _ => .error "paging: dict expected"

/-- Field parsing of `DatabaseModel` after the before-validator, collecting
one message per failing field as pydantic does. -/
def parse_fields (values : List (String × PyVal)) :
    Except PyErr DatabaseModelParsed :=
  let descriptionR := parseOptStrField values "description"
  let defaultR := parseOptBoolField values "default" (some false)
  let dialectR := parseDialectField values
  let useOdbcR := parseOptBoolField values "use_odbc" (some false)
  let uriR := parseOptStrField values "uri"
  let connR := parseConnParamsField values
  let autoCommitR := parseOptBoolField values "auto_commit" (some false)
  let pathR := parseOptStrField values "path"
  let pagingR := parsePagingField values
  let fetchReturnR := parseFetchReturnField values
  let errs := errOf descriptionR ++ errOf defaultR ++ errOf dialectR ++
    errOf useOdbcR ++ errOf uriR ++ errOf connR ++ errOf autoCommitR ++
    errOf pathR ++ errOf pagingR ++ errOf fetchReturnR
  match dialectR with
  | .ok dial =>
    if errs = [] then
      .ok { description := descriptionR.toOption.getD none,
            default := defaultR.toOption.getD none,
            dialect := dial,
            use_odbc := useOdbcR.toOption.getD none,
            uri := uriR.toOption.getD none,
            connection_params := connR.toOption.getD none,
            auto_commit := autoCommitR.toOption.getD none,
            path := pathR.toOption.getD none,
            paging := pagingR.toOption.getD none,
            fetch_return := fetchReturnR.toOption.getD .data }
    else .error (.validationError errs)
  | .error _ => .error (.validationError errs)

/-- Full pydantic validation of `DatabaseModel` applied to keyword
arguments: the before-validator, then field parsing. -/
def database_model_validate (values : List (String × PyVal)) :
    Except PyErr DatabaseModelParsed :=
  field_validation values >>= parse_fields

/-- Per-entry validation of `MultiDatabaseModel`'s root
`dict[str, DatabaseModel]`: entry errors are aggregated into one
`ValidationError`, while a non-`ValueError` exception raised inside a nested
validator propagates. -/
def multiEntries : List (String × PyVal) →
    Except PyErr (List (String × DatabaseModelParsed))
  | [] => .ok []
  | (k, v) :: rest =>
    match v with
    | .vDict ds =>
      match database_model_validate ds, multiEntries rest with
      | .ok m, .ok ms => .ok ((k, m) :: ms)
      | .ok _, .error e => .error e
      | .error (.validationError e1), .ok _ => .error (.validationError e1)
      | .error (.validationError e1), .error (.validationError e2) =>
        .error (.validationError (e1 ++ e2))
      | .error (.validationError _), .error e => .error e
      | .error e, _ => .error e
    | _ => .error (.typeError "non-dict value past the root validator")

/-- Embedding of `MultiDatabaseModel` validation: the `mode="before"`
root validator `ensure_values_are_dict`, then per-entry `DatabaseModel`
validation of the root dict. -/
def multi_database_model_validate (cfg : PyVal) :
    Except PyErr (List (String × DatabaseModelParsed)) :=
  match cfg with
  | .vDict es =>
    match es.find? (fun p => !p.2.isDict) with
    | some p => .error (.validationError ["Value for '" ++ p.1 ++ "' must be a dictionary."])
    | none => multiEntries es
  | _ => .error (.validationError ["Root must be a dictionary."])

/-- Result of `validate_db_model`. -/
inductive ValidatedModel where
  | single (m : DatabaseModelParsed)
  | multi (ms : List (String × DatabaseModelParsed))

/-- `DatabaseModel(**v)`: the keyword splat raises `TypeError` unless `v` is
a mapping. -/
def database_model_validate_kw (v : PyVal) : Except PyErr DatabaseModelParsed :=
  match v with
  | .vDict ds => database_model_validate ds
  | _ => .error (.typeError "argument after ** must be a mapping")

/-- `MultiDatabaseModel(**v)`. -/
def multi_database_model_validate_kw (v : PyVal) :
    Except PyErr (List (String × DatabaseModelParsed)) :=
  match v with
  | .vDict _ => multi_database_model_validate v
  | _ => .error (.typeError "argument after ** must be a mapping")

/-- The first statement of `validate_db_model`:
`db_config = db_config["db"] if "db" in db_config else db_config`. -/
def unwrap_db (es : List (String × PyVal)) : PyVal :=
  match es.find? (fun p => p.1 = "db") with
  | some p => p.2
  | none => .vDict es

/-- Embedding of `models/db_model.validate_db_model`: after the `"db"`
unwrapping, try `DatabaseModel`, then `MultiDatabaseModel`, catching only
`ValidationError`; if both reject, raise `ModelValidationErrors` carrying
the per-model error lists. -/
def validate_db_model (cfg : PyVal) : Except PyErr ValidatedModel :=
  match cfg with
  | .vDict es =>
    let eff := unwrap_db es
    match database_model_validate_kw eff with
    | .ok m => .ok (.single m)
    | .error (.validationError e1) =>
      match multi_database_model_validate_kw eff with
      | .ok ms => .ok (.multi ms)
      | .error (.validationError e2) =>
        .error (.modelValidationErrors
          [("DatabaseModel", e1), ("MultiDatabaseModel", e2)])
      | .error e => .error e
    | .error e => .error e
  | _ => .error (.typeError "argument of type is not iterable")

/-! ### `BaseDatabaseConnection._execute_query`

The whole body of the method (connecting, sanitising, paging, statement
execution, fetching, post-processing, auto-commit) sits inside one
`try: … except Exception as e: return self.error_handler(e)`.  External
effects are oracles in `ExecEnv`; instance attributes read by the body are
in `InstState`.  Two further source facts are reflected here: line 432
assigns `self.result_object` before fetching, and line 196 of `__init__`
rebinds `self._success_handler` to `None`, so the call on line 450 raises
`TypeError` for every data-manipulation query. -/

/-- External effects used by `_execute_query`: the DBAPI connection, the
result-object methods and `commit`. -/
structure ExecEnv (V R D : Type) where
  connectR : Except PyErr Unit
  executeR : String → SqlParams V → Except PyErr R
  fetchallR : R → Except PyErr D
  fetchoneR : R → Except PyErr D
  fetchmanyR : R → Int → Except PyErr D
  commitR : Except PyErr Unit

/-- Instance attributes read by `_execute_query`. -/
structure InstState (D : Type) where
  connected : Bool
  dialect : String
  self_page_size : Int
  paging_enabled : Bool
  fetch_return : FetchReturn
  auto_commit : Bool
  processors : List (D → Except PyErr D)

/-- Values `_execute_query` can produce on the non-exception path. -/
inductive ExecOut (R D : Type) where
  | dataOut (d : D)
  | objOut (r : R)
  | tupOut (d : D) (r : R)

/-- What `_execute_query` returns to its caller: a normal value or the
value produced by the error handler (by default the caught exception
itself). -/
inductive ExecRet (R D : Type) where
  | val (v : ExecOut R D)
  | excVal (e : PyErr)

/-- Truthiness of `if sanitizers:` for the optional sanitizer argument. -/
def sanTruthy {V : Type} : Option (Sanitizers V) → Bool
  | none => false
  | some (.one _) => true
  | some (.many ss) => !ss.isEmpty

/-- Python `fetch != 0` on the raw argument. -/
def FetchArg.nonzero : FetchArg → Bool
  | .int n => n ≠ 0
  | .notInt => true

/-- Dispatch of the resolved fetch action to the result object. -/
def runFetch {V R D : Type} (env : ExecEnv V R D) (r : R) :
    FetchAction → Except PyErr D
  | .fetchall => env.fetchallR r
  | .fetchone => env.fetchoneR r
  | .fetchmany n => env.fetchmanyR r n

/-- Embedding of `process_data`: the registered data processors applied in
order. -/
def process_data {D : Type} : List (D → Except PyErr D) → D → Except PyErr D
  | [], d => .ok d
  | p :: ps, d => p d >>= process_data ps

/-- The `try:` body of `_execute_query` (lines 411-450). -/
def execute_query_body {V R D : Type} (env : ExecEnv V R D) (st : InstState D)
    (query : String) (params : SqlParams V) (sanitizers : Option (Sanitizers V))
    (fetchArg : FetchArg) (offset : Int) (page_size : Option Int) :
    Except PyErr (ExecOut R D) := do
  let _ ← if !st.connected then env.connectR else .ok ()
  let ps : SqlParams V ←
    if sanTruthy sanitizers then
      match sanitizers with
      | some sa => (sanitize params sa).map SqlParams.dict
      | none => .ok params
    else .ok params
  let qv : PageRet ←
    if page_size.isSome || st.paging_enabled then
      page st.dialect st.self_page_size query offset page_size
    else if offset > 0 then
      (offset_query st.dialect query offset).map PageRet.str
    else .ok (.str query)
  match qv with
  | .exc _ => .error (.typeError "Textual SQL expression expected, got an exception object")
  | .str qs => do
    let r ← env.executeR qs ps
    if !is_data_manipulation_query qs then do
      let ra ← fetch (some r) (.set (some r)) fetchArg
      let data ← runFetch env ra.1 ra.2
      if fetchArg.nonzero then
        match st.fetch_return with
        | .object => .ok (.objOut r)
        | .tuple => (process_data st.processors data).map (fun d => .tupOut d r)
        | .data => (process_data st.processors data).map ExecOut.dataOut
      else
        (process_data st.processors data).map ExecOut.dataOut
    else do
      let _ ← if st.auto_commit then env.commitR else .ok ()
      .error (.typeError "'NoneType' object is not callable")

/-- Embedding of `_execute_query`: the body wrapped in the catch-all
handler.  `handler` models `self.error_handler`. -/
def execute_query {V R D : Type} (handler : PyErr → Except PyErr (ExecRet R D))
    (env : ExecEnv V R D) (st : InstState D) (query : String)
    (params : SqlParams V) (sanitizers : Option (Sanitizers V))
    (fetchArg : FetchArg) (offset : Int) (page_size : Option Int) :
    Except PyErr (ExecRet R D) :=
  match execute_query_body env st query params sanitizers fetchArg offset page_size with
  | .ok v => .ok (.val v)
  | .error e => handler e

/-- The default `error_handler` of `BaseDatabaseConnection`: it returns the
exception object unchanged. -/
def default_error_handler {R D : Type} : PyErr → Except PyErr (ExecRet R D) :=
  fun e => .ok (.excVal e)

deriving instance DecidableEq for Except

/-! ### Claims -/

/-- C1.  The claim states that for every non-empty parameter collection and
callable sanitizer argument, `sanitize` returns a dict with the same keys
holding the sanitised values.  The code's first statement is the inverted
guard `if params: return {}`, so every non-empty collection yields the empty
dict instead: evaluated here on `{"a": 1}` with the increment function, on a
two-entry dict with a one-element sanitizer list, and on a tuple of pairs. -/
theorem C1_sanitize_inverted_guard :
    sanitize (V := Int) (.dict [("a", 1)]) (.one (.callable (fun v => v + 1))) = .ok [] ∧
    sanitize (V := Int) (.dict [("a", 1), ("b", 2)]) (.many [.callable (fun v => v * 2)]) = .ok [] ∧
    sanitize (V := Int) (.tup [("k", 7)]) (.one (.callable (fun v => v))) = .ok [] :=
  ⟨rfl, rfl, rfl⟩

/-- C2.  The claim states that `page` appends the dialect-appropriate paging
clause for every schema-accepted dialect and never raises the
unsupported-dialect error for one.  The method compares `self.dialect`
against `"postgres"` and `"sql server"`, strings the schema never produces,
so the schema dialects `postgresql`, `mssql` and `mariadb` all raise
`ValueError("Unsupported database dialect for paging.")`; only `mysql`,
`sqlite` and `oracle` receive their clause. -/
theorem C2_page_unsupported_schema_dialects :
    page (Dialect.str .postgresql) 0 "SELECT 1" 0 (some 5) =
      .error (.valueError "Unsupported database dialect for paging.") ∧
    page (Dialect.str .mssql) 0 "SELECT 1" 0 (some 5) =
      .error (.valueError "Unsupported database dialect for paging.") ∧
    page (Dialect.str .mariadb) 0 "SELECT 1" 0 (some 5) =
      .error (.valueError "Unsupported database dialect for paging.") ∧
    page (Dialect.str .mysql) 0 "SELECT 1" 0 (some 5) =
      .ok (.str "SELECT 1 LIMIT 5 OFFSET 0") ∧
    page (Dialect.str .sqlite) 0 "SELECT 1" 3 (some 5) =
      .ok (.str "SELECT 1 LIMIT 5 OFFSET 3") ∧
    page (Dialect.str .oracle) 0 "SELECT 1" 3 (some 5) =
      .ok (.str "SELECT 1 OFFSET 3 ROWS FETCH NEXT 5 ROWS ONLY") :=
  ⟨rfl, rfl, rfl, rfl, rfl, rfl⟩

/-- C3.  `execute_sp` raises `ValueError` for the sqlite dialect and for any
schema dialect outside postgresql/mysql/mssql/oracle (that is, mariadb), and
otherwise hands `_execute_query` exactly the dialect template with one
placeholder per parameter key, or an empty argument list when `params` is
`None`. -/
theorem C3_execute_sp_templates (name : String) (ks : List String)
    (ps : Option (List String)) :
    (execute_sp_sql (Dialect.str .sqlite) name ps =
      .error (.valueError "SQLite does not support stored procedures.")) ∧
    (execute_sp_sql (Dialect.str .mariadb) name ps =
      .error (.valueError "Unsupported database dialect")) ∧
    (ks ≠ [] →
      execute_sp_sql (Dialect.str .postgresql) name (some ks) =
        .ok ("CALL " ++ name ++ "(" ++ String.intercalate ", " (ks.map (fun k => ":" ++ k)) ++ ")") ∧
      execute_sp_sql (Dialect.str .mysql) name (some ks) =
        .ok ("CALL " ++ name ++ "(" ++ String.intercalate ", " (ks.map (fun k => ":" ++ k)) ++ ")") ∧
      execute_sp_sql (Dialect.str .mssql) name (some ks) =
        .ok ("EXEC " ++ name ++ " " ++ String.intercalate ", " (ks.map (fun k => "@" ++ k ++ "=:" ++ k))) ∧
      execute_sp_sql (Dialect.str .oracle) name (some ks) =
        .ok ("BEGIN " ++ name ++ "(" ++ String.intercalate ", " (ks.map (fun k => ":" ++ k)) ++ "); END;")) ∧
    (execute_sp_sql (Dialect.str .postgresql) name none = .ok ("CALL " ++ name ++ "()")) ∧
    (execute_sp_sql (Dialect.str .mysql) name none = .ok ("CALL " ++ name ++ "()")) ∧
    (execute_sp_sql (Dialect.str .mssql) name none = .ok ("EXEC " ++ name ++ " ")) ∧
    (execute_sp_sql (Dialect.str .oracle) name none = .ok ("BEGIN " ++ name ++ "(); END;")) := by
  refine ⟨rfl, rfl, fun h => ?_, ?_, ?_, ?_, ?_⟩
  · refine ⟨?_, ?_, ?_, ?_⟩ <;>
      simp [execute_sp_sql, sp_args, Dialect.str, h, String.append_assoc]
  all_goals simp [execute_sp_sql, sp_args, Dialect.str, String.append_assoc]

/-- Concrete instantiation of the stored-procedure templating theorem. -/
theorem C3_execute_sp_templates_witness :
    execute_sp_sql "mssql" "dbo.proc" (some ["a", "b"]) = .ok "EXEC dbo.proc @a=:a, @b=:b" ∧
    execute_sp_sql "oracle" "p" none = .ok "BEGIN p(); END;" := by
  have h1 := ((C3_execute_sp_templates "dbo.proc" ["a", "b"] none).2.2.1 (by decide)).2.2.1
  have h2 := (C3_execute_sp_templates "p" ["a", "b"] none).2.2.2.2.2.2
  exact ⟨h1.trans (by decide), h2.trans (by decide)⟩

/-- Sample single-database configuration dumps used by the selection
claims. -/
def confA : DbConf := { dialect := .mysql }

def confB : DbConf := { dialect := .postgresql }

def confD : DbConf := { dialect := .oracle, default := some true }

/-- C4.  The claim states that a non-`None` `name` selects the configuration
stored under that key, with `KeyError` only when the key is absent.  The
source subscripts the literal string `"name"` (`_config = _config["name"]`),
so selecting `"alpha"` from `{"alpha": …, "beta": …}` raises `KeyError`
even though the key exists, while any configuration that happens to contain
a database literally called `"name"` is returned regardless of the
requested name. -/
theorem C4_named_selection_keyerror :
    select_multi_config [("alpha", confA), ("beta", confB)] (some "alpha") none none =
      .error (.keyError "An invalid database name was supplied") ∧
    select_multi_config [("name", confA), ("beta", confB)] (some "beta") none none =
      .ok (.conf confA) :=
  ⟨rfl, rfl⟩

/-- C5.  The claim states that without a name the first `default: true`
entry's configuration is selected, and failing that (and any class-level
default) the first configuration value of the document.  The default branch
is correct, but the fallback `next(iter(_config.items()))` yields the first
`(name, configuration)` pair, not the configuration, after which the
attribute-setting loop `for key, value in _config.items()` raises
`AttributeError` on the tuple. -/
theorem C5_first_item_is_pair :
    select_multi_config [("alpha", confA), ("beta", confB)] none none none =
      .ok (.item "alpha" confA) ∧
    init_active_config [("alpha", confA), ("beta", confB)] none none none =
      .error (.attributeError "'tuple' object has no attribute 'items'") ∧
    select_multi_config [("alpha", confA), ("beta", confD)] none none none =
      .ok (.conf confD) :=
  ⟨rfl, rfl, rfl⟩

/-- C7.  The claim states the `fetch` dispatch on integers (0 → `fetchall`,
1 → `fetchone`, otherwise `fetchmany`), `ValueError` on a non-integer, and
`ValueError` when no result object is supplied and none is stored.  The
dispatch and the non-integer branch hold, and the `ValueError` guard fires
when the `result_object` attribute holds `None`; but on a fresh instance the
attribute was never assigned (`__init__` sets `self.result_obj`, not
`self.result_object`), so calling `fetch()` there raises `AttributeError`
instead of the claimed `ValueError`. -/
theorem C7_fetch_dispatch :
    (∀ (n : Int) (r : Nat) (st : Attr (Option Nat)),
      fetch (some r) st (.int n) =
        .ok (r, if n = 0 then FetchAction.fetchall
                else if n = 1 then FetchAction.fetchone
                else FetchAction.fetchmany n)) ∧
    (∀ (r : Nat) (st : Attr (Option Nat)),
      fetch (some r) st .notInt =
        .error (.valueError "Fetch value must be an int. Use 0 for all rows")) ∧
    fetch (R := Nat) none (.set none) (.int 0) =
      .error (.valueError "No valid result object found.") ∧
    fetch (R := Nat) none .unset (.int 0) =
      .error (.attributeError "'SqlAlchemyConnection' object has no attribute 'result_object'") :=
  ⟨fun _ _ _ => rfl, fun _ _ => rfl, rfl, rfl⟩

/-- C8.  Any exception raised anywhere inside the `_execute_query` body is
caught and turned into the value produced by `error_handler`; with the
default handler the returned value is the exception object itself, so the
method never propagates an exception to its caller. -/
theorem C8_execute_query_catches_all :
    (∀ (V R D : Type) (handler : PyErr → Except PyErr (ExecRet R D))
      (env : ExecEnv V R D) (st : InstState D) (q : String) (p : SqlParams V)
      (sa : Option (Sanitizers V)) (f : FetchArg) (off : Int) (ps : Option Int)
      (e : PyErr),
      execute_query_body env st q p sa f off ps = .error e →
      execute_query handler env st q p sa f off ps = handler e) ∧
    (∀ (V R D : Type) (env : ExecEnv V R D) (st : InstState D) (q : String)
      (p : SqlParams V) (sa : Option (Sanitizers V)) (f : FetchArg) (off : Int)
      (ps : Option Int),
      (execute_query (default_error_handler) env st q p sa f off ps).isOk = true) ∧
    (∀ (V R D : Type) (env : ExecEnv V R D) (st : InstState D) (q : String)
      (p : SqlParams V) (sa : Option (Sanitizers V)) (f : FetchArg) (off : Int)
      (ps : Option Int) (e : PyErr),
      execute_query_body env st q p sa f off ps = .error e →
      execute_query default_error_handler env st q p sa f off ps = .ok (.excVal e)) := by
  refine ⟨?_, ?_, ?_⟩
  · intro V R D handler env st q p sa f off ps e h
    unfold execute_query
    rw [h]
  · intro V R D env st q p sa f off ps
    unfold execute_query
    cases execute_query_body env st q p sa f off ps <;> rfl
  · intro V R D env st q p sa f off ps e h
    unfold execute_query
    rw [h]
    rfl

/-- Oracle record whose connection attempt fails. -/
def envFailConnect : ExecEnv Unit Unit Unit :=
  { connectR := .error (.valueError "connection refused"),
    executeR := fun _ _ => .ok (),
    fetchallR := fun _ => .ok (),
    fetchoneR := fun _ => .ok (),
    fetchmanyR := fun _ _ => .ok (),
    commitR := .ok () }

/-- A disconnected instance state. -/
def stDisconnected : InstState Unit :=
  { connected := false, dialect := "mysql", self_page_size := 0,
    paging_enabled := false, fetch_return := .data, auto_commit := false,
    processors := [] }

/-- Concrete instantiation of the catch-all theorem: a failing connection
step surfaces as the returned exception value, not a raised one. -/
theorem C8_execute_query_catches_all_witness :
    execute_query default_error_handler envFailConnect stDisconnected
      "SELECT 1" .noneP none (.int 0) 0 none =
      .ok (.excVal (.valueError "connection refused")) :=
  C8_execute_query_catches_all.2.2 Unit Unit Unit envFailConnect stDisconnected
    "SELECT 1" .noneP none (.int 0) 0 none (.valueError "connection refused") rfl

@[simp] theorem exceptIsOk_ok {ε α : Type} (a : α) : (Except.ok a : Except ε α).isOk = true := rfl

@[simp] theorem exceptIsOk_error {ε α : Type} (e : ε) : (Except.error e : Except ε α).isOk = false := rfl

/-- Per-entry characterisation of `MultiDatabaseModel` validation success. -/
lemma multiEntries_isOk_iff (es : List (String × PyVal)) :
    (multiEntries es).isOk = true ↔
      ∀ p ∈ es, ∃ ds, p.2 = PyVal.vDict ds ∧ (database_model_validate ds).isOk = true := by
  induction es with
  | nil => simp [multiEntries]
  | cons hd tl ih =>
    obtain ⟨k, v⟩ := hd
    cases v with
    | vDict ds =>
      constructor
      · intro h
        rcases h1 : database_model_validate ds with e | m
        · exfalso
          rcases h2 : multiEntries tl with e2 | ms <;>
            rcases e with m1 | m1 | m1 | m1 | _ | m1 | m1 <;>
              (try rcases e2 with n1 | n1 | n1 | n1 | _ | n1 | n1) <;>
                simp [multiEntries, h1, h2] at h
        · rcases h2 : multiEntries tl with e2 | ms
          · exfalso; simp [multiEntries, h1, h2] at h
          · intro p hp
            rcases List.mem_cons.mp hp with rfl | hp'
            · exact ⟨ds, rfl, by rw [h1]; rfl⟩
            · exact (ih.mp (by rw [h2]; rfl)) p hp'
      · intro h
        obtain ⟨ds', hds, hok⟩ := h (k, .vDict ds) (List.mem_cons_self _ _)
        injection hds with hds'
        subst hds'
        have htl : (multiEntries tl).isOk = true :=
          ih.mpr (fun p hp => h p (List.mem_cons_of_mem _ hp))
        rcases h1 : database_model_validate ds with e | m
        · rw [h1] at hok; simp at hok
        · rcases h2 : multiEntries tl with e2 | ms
          · rw [h2] at htl; simp at htl
          · simp [multiEntries, h1, h2]
    | vNone =>
      constructor
      · intro h; simp [multiEntries] at h
      · intro h
        obtain ⟨ds, hds, _⟩ := h (k, .vNone) (List.mem_cons_self _ _)
        cases hds
    | vBool b =>
      constructor
      · intro h; simp [multiEntries] at h
      · intro h
        obtain ⟨ds, hds, _⟩ := h (k, .vBool b) (List.mem_cons_self _ _)
        cases hds
    | vInt n =>
      constructor
      · intro h; simp [multiEntries] at h
      · intro h
        obtain ⟨ds, hds, _⟩ := h (k, .vInt n) (List.mem_cons_self _ _)
        cases hds
    | vStr s =>
      constructor
      · intro h; simp [multiEntries] at h
      · intro h
        obtain ⟨ds, hds, _⟩ := h (k, .vStr s) (List.mem_cons_self _ _)
        cases hds

/-- A document passes `MultiDatabaseModel` exactly when it is a dict of
dicts each accepted by `DatabaseModel`. -/
lemma multiValidate_isOk_iff (cfg : PyVal) :
    (multi_database_model_validate cfg).isOk = true ↔
      ∃ es, cfg = PyVal.vDict es ∧
        ∀ p ∈ es, ∃ ds, p.2 = PyVal.vDict ds ∧ (database_model_validate ds).isOk = true := by
  cases cfg with
  | vDict es =>
    rcases h : es.find? (fun p => !p.2.isDict) with _ | p
    · constructor
      · intro hOk
        refine ⟨es, rfl, ?_⟩
        have hm : (multiEntries es).isOk = true := by
          simpa [multi_database_model_validate, h] using hOk
        exact (multiEntries_isOk_iff es).mp hm
      · rintro ⟨es', heq, hall⟩
        injection heq with heq'
        subst heq'
        simp only [multi_database_model_validate, h]
        exact (multiEntries_isOk_iff es).mpr hall
    · constructor
      · intro hOk
        exfalso
        simp [multi_database_model_validate, h] at hOk
      · rintro ⟨es', heq, hall⟩
        injection heq with heq'
        subst heq'
        have hmem := List.mem_of_find?_eq_some h
        have hpred := List.find?_some h
        obtain ⟨ds, hds, _⟩ := hall p hmem
        rw [hds] at hpred
        simp [PyVal.isDict] at hpred
  | vNone =>
    constructor
    · intro hOk; simp [multi_database_model_validate] at hOk
    · rintro ⟨es, heq, _⟩; cases heq
  | vBool b =>
    constructor
    · intro hOk; simp [multi_database_model_validate] at hOk
    · rintro ⟨es, heq, _⟩; cases heq
  | vInt n =>
    constructor
    · intro hOk; simp [multi_database_model_validate] at hOk
    · rintro ⟨es, heq, _⟩; cases heq
  | vStr s =>
    constructor
    · intro hOk; simp [multi_database_model_validate] at hOk
    · rintro ⟨es, heq, _⟩; cases heq

/-- Dispatch of `validate_db_model` when the effective document passes the
single-database schema. -/
lemma validate_db_model_single (es : List (String × PyVal)) (m : DatabaseModelParsed)
    (h : database_model_validate_kw (unwrap_db es) = .ok m) :
    validate_db_model (.vDict es) = .ok (.single m) := by
  simp only [validate_db_model, h]

/-- Dispatch of `validate_db_model` when only the multi-database schema
accepts the effective document. -/
lemma validate_db_model_multi (es : List (String × PyVal)) (e1 : List String)
    (ms : List (String × DatabaseModelParsed))
    (h1 : database_model_validate_kw (unwrap_db es) = .error (.validationError e1))
    (h2 : multi_database_model_validate_kw (unwrap_db es) = .ok ms) :
    validate_db_model (.vDict es) = .ok (.multi ms) := by
  simp only [validate_db_model, h1, h2]

/-- Dispatch of `validate_db_model` when both schemas reject the effective
document with validation errors. -/
lemma validate_db_model_both_fail (es : List (String × PyVal)) (e1 e2 : List String)
    (h1 : database_model_validate_kw (unwrap_db es) = .error (.validationError e1))
    (h2 : multi_database_model_validate_kw (unwrap_db es) = .error (.validationError e2)) :
    validate_db_model (.vDict es) =
      .error (.modelValidationErrors [("DatabaseModel", e1), ("MultiDatabaseModel", e2)]) := by
  simp only [validate_db_model, h1, h2]

/-- A multi-database document that is valid for `MultiDatabaseModel`. -/
def cfgInnerSqlite : List (String × PyVal) :=
  [("dialect", .vStr "sqlite"), ("path", .vStr "p")]

def cfgMulti : PyVal := .vDict [("a", .vDict cfgInnerSqlite)]

/-- C6 (counterexample).  The claim says `validate_db_model` raises
`ModelValidationErrors` whenever both schemas reject the configuration.
For the document `{"db": {"a": <valid single config>}}` both schemas reject
the document itself, yet `validate_db_model` returns a validated model: it
silently replaces the document by the value under its `"db"` key first. -/
theorem C6_counterexample_db_unwrap :
    (database_model_validate_kw (.vDict [("db", cfgMulti)])).isOk = false ∧
    (multi_database_model_validate_kw (.vDict [("db", cfgMulti)])).isOk = false ∧
    (validate_db_model (.vDict [("db", cfgMulti)])).isOk = true :=
  ⟨rfl, rfl, rfl⟩

/-- C6 (amended).  A document validates against `MultiDatabaseModel` iff it
is a dict in which every value is a dict accepted by `DatabaseModel`; and
`validate_db_model`, after first replacing the document by the value of its
`"db"` key when that key is present, returns a validated model when either
schema accepts the effective document and raises `ModelValidationErrors`
aggregating the two per-model error lists when both reject it with
validation errors. -/
theorem C6_validate_db_model_amended :
    (∀ cfg : PyVal,
      (multi_database_model_validate cfg).isOk = true ↔
        ∃ es, cfg = PyVal.vDict es ∧
          ∀ p ∈ es, ∃ ds, p.2 = PyVal.vDict ds ∧
            (database_model_validate ds).isOk = true) ∧
    (∀ (es : List (String × PyVal)) (m : DatabaseModelParsed),
      database_model_validate_kw (unwrap_db es) = .ok m →
      validate_db_model (.vDict es) = .ok (.single m)) ∧
    (∀ (es : List (String × PyVal)) (e1 : List String)
      (ms : List (String × DatabaseModelParsed)),
      database_model_validate_kw (unwrap_db es) = .error (.validationError e1) →
      multi_database_model_validate_kw (unwrap_db es) = .ok ms →
      validate_db_model (.vDict es) = .ok (.multi ms)) ∧
    (∀ (es : List (String × PyVal)) (e1 e2 : List String),
      database_model_validate_kw (unwrap_db es) = .error (.validationError e1) →
      multi_database_model_validate_kw (unwrap_db es) = .error (.validationError e2) →
      validate_db_model (.vDict es) =
        .error (.modelValidationErrors [("DatabaseModel", e1), ("MultiDatabaseModel", e2)])) :=
  ⟨multiValidate_isOk_iff, validate_db_model_single, validate_db_model_multi,
    validate_db_model_both_fail⟩

/-- Concrete instantiation of the amended validation theorem: a single
config is returned as `single`, a multi config as `multi`, and a document
rejected by both schemas raises the aggregated error. -/
theorem C6_validate_db_model_amended_witness :
    validate_db_model (.vDict cfgInnerSqlite) =
      .ok (.single { dialect := .sqlite, path := some "p" }) ∧
    validate_db_model cfgMulti =
      .ok (.multi [("a", { dialect := .sqlite, path := some "p" })]) ∧
    validate_db_model (.vDict [("dialect", .vInt 5)]) =
      .error (.modelValidationErrors
        [("DatabaseModel",
          ["Either `uri` or `connection_params` must be provided for non-sqlite dialects.",
           "Connection parameter information is missing. Provide a uri or complete connection parameters."]),
         ("MultiDatabaseModel", ["Value for 'dialect' must be a dictionary."])]) ∧
    (multi_database_model_validate cfgMulti).isOk = true := by
  refine ⟨?_, ?_, ?_, ?_⟩
  · exact C6_validate_db_model_amended.2.1 cfgInnerSqlite _ rfl
  · exact C6_validate_db_model_amended.2.2.1 [("a", .vDict cfgInnerSqlite)] _ _ rfl rfl
  · exact C6_validate_db_model_amended.2.2.2 [("dialect", .vInt 5)] _ _ rfl rfl
  · exact (C6_validate_db_model_amended.1 cfgMulti).mpr
      ⟨[("a", .vDict cfgInnerSqlite)], rfl, by
        intro p hp
        simp only [List.mem_singleton] at hp
        subst hp
        exact ⟨cfgInnerSqlite, rfl, rfl⟩⟩

lemma isSpace_enum {c : Char} (h : isSpaceChar c = true) :
    c = ' ' ∨ c = '\t' ∨ c = '\n' ∨ c = '\r' ∨ c = '\x0b' ∨ c = '\x0c' := by
  simp only [isSpaceChar, Bool.or_eq_true, decide_eq_true_eq] at h
  tauto

lemma toLower_of_space {c : Char} (h : isSpaceChar c = true) : c.toLower = c := by
  rcases isSpace_enum h with rfl | rfl | rfl | rfl | rfl | rfl <;> decide

lemma space_not_word {c : Char} (h : isSpaceChar c = true) : isWordChar c = false := by
  rcases isSpace_enum h with rfl | rfl | rfl | rfl | rfl | rfl <;> decide

lemma space_not_digit {c : Char} (h : isSpaceChar c = true) : c.isDigit = false := by
  rcases isSpace_enum h with rfl | rfl | rfl | rfl | rfl | rfl <;> decide

lemma digit_not_space {c : Char} (h : c.isDigit = true) : isSpaceChar c = false := by
  cases h2 : isSpaceChar c
  · rfl
  · rw [space_not_digit h2] at h; cases h

lemma space_toLower_ne {c k : Char} (h : isSpaceChar c = true)
    (hk : isSpaceChar k = false) : ¬(c.toLower = k) := by
  intro heq
  rw [toLower_of_space h] at heq
  subst heq
  rw [h] at hk
  cases hk

lemma space_ne_lt {c : Char} (h : isSpaceChar c = true) : ¬(c = '<') := by
  rcases isSpace_enum h with rfl | rfl | rfl | rfl | rfl | rfl <;> decide

/-- All-whitespace character lists (candidates for `strip` removal). -/
def AllSpace (w : List Char) : Prop := ∀ c ∈ w, isSpaceChar c = true

/-- Relation between a matcher state over `s ++ w` and over `s`: either the
trailing whitespace block is still untouched, or both sides are exhausted. -/
def RelW (w a b : List Char) : Prop := a = b ++ w ∨ (a = [] ∧ b = [])

lemma dropWhile_all_space {w : List Char} (hw : AllSpace w) :
    w.dropWhile isSpaceChar = [] := by
  induction w with
  | nil => rfl
  | cons c t ih =>
    rw [List.dropWhile_cons, if_pos (hw c (List.mem_cons_self _ _))]
    exact ih (fun x hx => hw x (List.mem_cons_of_mem _ hx))

lemma dropWhile_append_sat {w : List Char} {p : Char → Bool}
    (hsat : ∀ c ∈ w, p c = true) :
    ∀ xs, RelW w ((xs ++ w).dropWhile p) (xs.dropWhile p) := by
  intro xs
  induction xs with
  | nil =>
    right
    constructor
    · simp only [List.nil_append]
      exact List.dropWhile_eq_nil_iff.mpr hsat
    · rfl
  | cons x t ih =>
    rw [List.cons_append, List.dropWhile_cons, List.dropWhile_cons]
    by_cases hp : p x = true
    · rw [if_pos hp, if_pos hp]; exact ih
    · rw [if_neg hp, if_neg hp]; left; rfl

lemma dropWhile_append_fail {w : List Char} {p : Char → Bool}
    (hfail : ∀ c ∈ w, p c = false) :
    ∀ xs, RelW w ((xs ++ w).dropWhile p) (xs.dropWhile p) := by
  intro xs
  induction xs with
  | nil =>
    left
    simp only [List.nil_append, List.dropWhile_nil]
    cases w with
    | nil => rfl
    | cons c t =>
      rw [List.dropWhile_cons, if_neg]
      rw [hfail c (List.mem_cons_self _ _)]
      exact Bool.false_ne_true
  | cons x t ih =>
    rw [List.cons_append, List.dropWhile_cons, List.dropWhile_cons]
    by_cases hp : p x = true
    · rw [if_pos hp, if_pos hp]; exact ih
    · rw [if_neg hp, if_neg hp]; left; rfl

lemma skipWs_rel {w a b : List Char} (hw : AllSpace w) (hr : RelW w a b) :
    RelW w (skipWs a) (skipWs b) := by
  rcases hr with rfl | ⟨rfl, rfl⟩
  · exact dropWhile_append_sat hw b
  · right; exact ⟨rfl, rfl⟩

lemma pLit_rel {w : List Char} (hw : AllSpace w) :
    ∀ (kw : List Char), (∀ k ∈ kw, isSpaceChar k = false) →
    ∀ (a b : List Char), RelW w a b →
    (pLit kw a = none ∧ pLit kw b = none) ∨
      ∃ a' b', pLit kw a = some a' ∧ pLit kw b = some b' ∧ RelW w a' b' := by
  intro kw
  induction kw with
  | nil => intro _ a b hr; right; exact ⟨a, b, rfl, rfl, hr⟩
  | cons k ks ih =>
    intro hkw a b hr
    rcases hr with rfl | ⟨rfl, rfl⟩
    · cases b with
      | nil =>
        cases w with
        | nil => left; exact ⟨rfl, rfl⟩
        | cons c t =>
          left
          refine ⟨?_, rfl⟩
          simp only [List.nil_append, pLit]
          rw [if_neg (space_toLower_ne (hw c (List.mem_cons_self _ _))
            (hkw k (List.mem_cons_self _ _)))]
      | cons x bt =>
        rw [List.cons_append]
        by_cases hx : x.toLower = k
        · simp only [pLit, if_pos hx]
          exact ih (fun kk hk => hkw kk (List.mem_cons_of_mem _ hk)) _ _ (Or.inl rfl)
        · left
          constructor <;> simp [pLit, if_neg hx]
    · left; exact ⟨rfl, rfl⟩

lemma pWs1_rel {w a b : List Char} (hw : AllSpace w) (hr : RelW w a b) :
    (pWs1 a = none ∧ pWs1 b = none) ∨
    (∃ a' b', pWs1 a = some a' ∧ pWs1 b = some b' ∧ RelW w a' b') ∨
    (pWs1 a = some [] ∧ pWs1 b = none) := by
  rcases hr with rfl | ⟨rfl, rfl⟩
  · cases b with
    | nil =>
      cases w with
      | nil => left; exact ⟨rfl, rfl⟩
      | cons c t =>
        right; right
        constructor
        · simp only [List.nil_append, pWs1, if_pos (hw c (List.mem_cons_self _ _))]
          rw [dropWhile_all_space (fun x hx => hw x (List.mem_cons_of_mem _ hx))]
        · rfl
    | cons x bt =>
      rw [List.cons_append]
      by_cases hx : isSpaceChar x = true
      · right; left
        refine ⟨(bt ++ w).dropWhile isSpaceChar, bt.dropWhile isSpaceChar, ?_, ?_, ?_⟩
        · simp only [pWs1, if_pos hx]
        · simp only [pWs1, if_pos hx]
        · exact dropWhile_append_sat hw bt
      · left
        constructor <;> simp [pWs1, if_neg hx]
  · left; exact ⟨rfl, rfl⟩

lemma pDigits1_rel {w a b : List Char} (hw : AllSpace w) (hr : RelW w a b) :
    (pDigits1 a = none ∧ pDigits1 b = none) ∨
      ∃ a' b', pDigits1 a = some a' ∧ pDigits1 b = some b' ∧ RelW w a' b' := by
  rcases hr with rfl | ⟨rfl, rfl⟩
  · cases b with
    | nil =>
      cases w with
      | nil => left; exact ⟨rfl, rfl⟩
      | cons c t =>
        left
        refine ⟨?_, rfl⟩
        simp only [List.nil_append, pDigits1]
        rw [if_neg]
        rw [space_not_digit (hw c (List.mem_cons_self _ _))]
        exact Bool.false_ne_true
    | cons x bt =>
      rw [List.cons_append]
      by_cases hx : x.isDigit = true
      · right
        refine ⟨(bt ++ w).dropWhile Char.isDigit, bt.dropWhile Char.isDigit, ?_, ?_, ?_⟩
        · simp only [pDigits1, if_pos hx]
        · simp only [pDigits1, if_pos hx]
        · exact dropWhile_append_fail
            (fun c hc => space_not_digit (hw c hc)) bt
      · left
        constructor <;> simp [pDigits1, if_neg hx]
  · left; exact ⟨rfl, rfl⟩

lemma wordBoundaryEnd_rel {w a b : List Char} (hw : AllSpace w) (hr : RelW w a b) :
    wordBoundaryEnd a = wordBoundaryEnd b := by
  rcases hr with rfl | ⟨rfl, rfl⟩
  · cases b with
    | nil =>
      cases w with
      | nil => rfl
      | cons c t =>
        show wordBoundaryEnd (c :: t) = wordBoundaryEnd []
        simp [wordBoundaryEnd, space_not_word (hw c (List.mem_cons_self _ _))]
    | cons x bt => rfl
  · rfl

lemma offsetTail_rel {w a b : List Char} (hw : AllSpace w) (hr : RelW w a b) :
    offsetTail a = offsetTail b := by
  unfold offsetTail
  rcases pLit_rel hw offsetKw (by decide) _ _ (skipWs_rel hw hr) with
    ⟨ha, hb⟩ | ⟨a1, b1, ha, hb, hr1⟩
  · simp only [ha, hb]
  · simp only [ha, hb]
    rcases pWs1_rel hw hr1 with ⟨ha2, hb2⟩ | ⟨a2, b2, ha2, hb2, hr2⟩ | ⟨ha2, hb2⟩
    · simp only [ha2, hb2]
    · simp only [ha2, hb2]
      rcases pDigits1_rel hw hr2 with ⟨ha3, hb3⟩ | ⟨a3, b3, ha3, hb3, hr3⟩
      · simp only [ha3, hb3]
      · simp only [ha3, hb3]
        exact wordBoundaryEnd_rel hw hr3
    · simp only [ha2, hb2, pDigits1]

lemma coreLimitOffset_rel {w a b : List Char} (hw : AllSpace w) (hr : RelW w a b) :
    coreLimitOffset a = coreLimitOffset b := by
  unfold coreLimitOffset
  rcases pLit_rel hw limitKw (by decide) _ _ hr with ⟨ha, hb⟩ | ⟨a1, b1, ha, hb, hr1⟩
  · simp only [ha, hb]
  · simp only [ha, hb]
    rcases pWs1_rel hw hr1 with ⟨ha2, hb2⟩ | ⟨a2, b2, ha2, hb2, hr2⟩ | ⟨ha2, hb2⟩
    · simp only [ha2, hb2]
    · simp only [ha2, hb2]
      rcases pDigits1_rel hw hr2 with ⟨ha3, hb3⟩ | ⟨a3, b3, ha3, hb3, hr3⟩
      · simp only [ha3, hb3]
      · simp only [ha3, hb3]
        rw [wordBoundaryEnd_rel hw hr3, offsetTail_rel hw hr3]
    · simp only [ha2, hb2, pDigits1]

lemma coreKwNum_rel {w a b : List Char} (hw : AllSpace w) (kw : List Char)
    (hkw : ∀ k ∈ kw, isSpaceChar k = false) (hr : RelW w a b) :
    coreKwNum kw a = coreKwNum kw b := by
  unfold coreKwNum
  rcases pLit_rel hw kw hkw _ _ hr with ⟨ha, hb⟩ | ⟨a1, b1, ha, hb, hr1⟩
  · simp only [ha, hb]
  · simp only [ha, hb]
    rcases pWs1_rel hw hr1 with ⟨ha2, hb2⟩ | ⟨a2, b2, ha2, hb2, hr2⟩ | ⟨ha2, hb2⟩
    · simp only [ha2, hb2]
    · simp only [ha2, hb2]
      rcases pDigits1_rel hw hr2 with ⟨ha3, hb3⟩ | ⟨a3, b3, ha3, hb3, hr3⟩
      · simp only [ha3, hb3]
      · simp only [ha3, hb3]
        exact wordBoundaryEnd_rel hw hr3
    · simp only [ha2, hb2, pDigits1]

lemma numTail_rel {w a b : List Char} (hw : AllSpace w) (hr : RelW w a b) :
    numTail a = numTail b := by
  unfold numTail
  rcases pDigits1_rel hw (skipWs_rel hw hr) with ⟨ha, hb⟩ | ⟨a1, b1, ha, hb, hr1⟩
  · simp only [ha, hb]
  · simp only [ha, hb]
    exact wordBoundaryEnd_rel hw hr1

lemma rownumLt_rel {w a b : List Char} (hw : AllSpace w) (hr : RelW w a b) :
    rownumLt a = rownumLt b := by
  rcases hr with rfl | ⟨rfl, rfl⟩
  · cases b with
    | nil =>
      cases w with
      | nil => rfl
      | cons c t =>
        show rownumLt (c :: t) = rownumLt []
        simp only [rownumLt, if_neg (space_ne_lt (hw c (List.mem_cons_self _ _)))]
    | cons x bt =>
      rw [List.cons_append]
      by_cases hx : x = '<'
      · simp only [rownumLt, if_pos hx]
        rw [numTail_rel hw (Or.inl rfl : RelW w (bt ++ w) bt)]
        cases bt with
        | nil =>
          cases w with
          | nil => rfl
          | cons c2 t2 =>
            have hne : ¬(c2 = '=') := by
              rcases isSpace_enum (hw c2 (List.mem_cons_self _ _)) with
                rfl | rfl | rfl | rfl | rfl | rfl <;> decide
            simp only [List.nil_append, if_neg hne]
        | cons y bt2 =>
          rw [List.cons_append]
          by_cases hy : y = '='
          · simp only [if_pos hy]
            rw [numTail_rel hw (Or.inl rfl : RelW w (bt2 ++ w) bt2)]
          · simp only [if_neg hy]
      · simp only [rownumLt, if_neg hx]
  · rfl

lemma rownumBetween_rel {w a b : List Char} (hw : AllSpace w) (hr : RelW w a b) :
    rownumBetween a = rownumBetween b := by
  rcases hr with rfl | ⟨rfl, rfl⟩
  · cases b with
    | nil =>
      cases w with
      | nil => rfl
      | cons c t =>
        show rownumBetween (c :: t) = rownumBetween []
        have hsp := hw c (List.mem_cons_self _ _)
        have hskip : skipWs (c :: t) = [] := dropWhile_all_space hw
        simp only [rownumBetween, if_pos hsp, hskip, pLit]
    | cons x bt =>
      have hrel : RelW w ((x :: bt) ++ w) (x :: bt) := Or.inl rfl
      rw [List.cons_append]
      by_cases hx : isSpaceChar x = true
      · simp only [rownumBetween, if_pos hx]
        rcases pLit_rel hw betweenKw (by decide) _ _ (skipWs_rel hw hrel) with
          ⟨ha, hb⟩ | ⟨a1, b1, ha, hb, hr1⟩
        · rw [List.cons_append] at ha
          simp only [ha, hb]
        · rw [List.cons_append] at ha
          simp only [ha, hb]
          rcases pDigits1_rel hw (skipWs_rel hw hr1) with ⟨ha2, hb2⟩ | ⟨a2, b2, ha2, hb2, hr2⟩
          · simp only [ha2, hb2]
          · simp only [ha2, hb2]
            rcases pLit_rel hw andKw (by decide) _ _ (skipWs_rel hw hr2) with
              ⟨ha3, hb3⟩ | ⟨a3, b3, ha3, hb3, hr3⟩
            · simp only [ha3, hb3]
            · simp only [ha3, hb3]
              rcases pDigits1_rel hw (skipWs_rel hw hr3) with
                ⟨ha4, hb4⟩ | ⟨a4, b4, ha4, hb4, hr4⟩
              · simp only [ha4, hb4]
              · simp only [ha4, hb4]
                exact wordBoundaryEnd_rel hw hr4
      · simp only [rownumBetween, if_neg hx]
  · rfl

lemma coreRownum_rel {w a b : List Char} (hw : AllSpace w) (hr : RelW w a b) :
    coreRownum a = coreRownum b := by
  unfold coreRownum
  rcases pLit_rel hw rownumKw (by decide) _ _ hr with ⟨ha, hb⟩ | ⟨a1, b1, ha, hb, hr1⟩
  · simp only [ha, hb]
  · simp only [ha, hb]
    rw [rownumBetween_rel hw hr1, rownumLt_rel hw hr1]

lemma pLit_space_head {c k : Char} {ks t : List Char} (hc : isSpaceChar c = true)
    (hk : isSpaceChar k = false) : pLit (k :: ks) (c :: t) = none := by
  simp [pLit, if_neg (space_toLower_ne hc hk)]

lemma coreLimitOffset_space_head {c : Char} {t : List Char}
    (hc : isSpaceChar c = true) : coreLimitOffset (c :: t) = false := by
  have hk : isSpaceChar 'l' = false := by decide
  simp only [coreLimitOffset, limitKw, pLit_space_head hc hk]

lemma coreKwNum_space_head {c k : Char} {ks t : List Char} (hc : isSpaceChar c = true)
    (hk : isSpaceChar k = false) : coreKwNum (k :: ks) (c :: t) = false := by
  simp only [coreKwNum, pLit_space_head hc hk]

lemma coreRownum_space_head {c : Char} {t : List Char}
    (hc : isSpaceChar c = true) : coreRownum (c :: t) = false := by
  have hk : isSpaceChar 'r' = false := by decide
  simp only [coreRownum, rownumKw, pLit_space_head hc hk]

lemma reSearch_congr_prev {core : List Char → Bool} {p1 p2 : Option Char}
    {s : List Char} (h : bdyPrev p1 = bdyPrev p2) :
    reSearch core p1 s = reSearch core p2 s := by
  cases s <;> simp [reSearch, h]

lemma reSearch_all_space {core : List Char → Bool} (hnil : core [] = false)
    (hsp : ∀ c t, isSpaceChar c = true → core (c :: t) = false) :
    ∀ w, AllSpace w → ∀ p, reSearch core p w = false := by
  intro w
  induction w with
  | nil => intro _ p; simp [reSearch, hnil]
  | cons c t ih =>
    intro hw p
    simp only [reSearch, hsp c t (hw c (List.mem_cons_self _ _)), Bool.and_false,
      Bool.false_or]
    exact ih (fun x hx => hw x (List.mem_cons_of_mem _ hx)) (some c)

lemma reSearch_append_space {core : List Char → Bool}
    (hrel : ∀ w a b, AllSpace w → RelW w a b → core a = core b)
    (hnil : core [] = false)
    (hsp : ∀ c t, isSpaceChar c = true → core (c :: t) = false)
    {w : List Char} (hw : AllSpace w) :
    ∀ s p, reSearch core p (s ++ w) = reSearch core p s := by
  intro s
  induction s with
  | nil =>
    intro p
    rw [List.nil_append, reSearch_all_space hnil hsp w hw p]
    simp [reSearch, hnil]
  | cons a t ih =>
    intro p
    show (bdyPrev p && core (a :: (t ++ w)) || reSearch core (some a) (t ++ w)) =
      (bdyPrev p && core (a :: t) || reSearch core (some a) t)
    rw [show core (a :: (t ++ w)) = core (a :: t) from hrel w _ _ hw (Or.inl rfl),
      ih (some a)]

lemma reSearch_dropWhile_lead {core : List Char → Bool}
    (hsp : ∀ c t, isSpaceChar c = true → core (c :: t) = false) :
    ∀ s, reSearch core none (s.dropWhile isSpaceChar) = reSearch core none s := by
  intro s
  induction s with
  | nil => rfl
  | cons c t ih =>
    by_cases hc : isSpaceChar c = true
    · rw [List.dropWhile_cons, if_pos hc, ih]
      show reSearch core none t = reSearch core none (c :: t)
      simp only [reSearch, hsp c t hc, Bool.and_false, Bool.false_or]
      exact reSearch_congr_prev (by simp [bdyPrev, space_not_word hc])
    · rw [List.dropWhile_cons, if_neg hc]

lemma stripTrail_decomp (l : List Char) :
    ∃ w, l = stripTrailL l ++ w ∧ AllSpace w := by
  refine ⟨(l.reverse.takeWhile isSpaceChar).reverse, ?_, ?_⟩
  · have h1 : l.reverse.takeWhile isSpaceChar ++ l.reverse.dropWhile isSpaceChar
        = l.reverse := List.takeWhile_append_dropWhile _ _
    calc l = l.reverse.reverse := (List.reverse_reverse l).symm
      _ = (l.reverse.takeWhile isSpaceChar ++ l.reverse.dropWhile isSpaceChar).reverse := by
          rw [h1]
      _ = (l.reverse.dropWhile isSpaceChar).reverse
          ++ (l.reverse.takeWhile isSpaceChar).reverse := by
          rw [List.reverse_append]
      _ = stripTrailL l ++ (l.reverse.takeWhile isSpaceChar).reverse := rfl
  · intro c hc
    rw [List.mem_reverse] at hc
    exact List.mem_takeWhile_imp hc

lemma reSearch_stripL {core : List Char → Bool}
    (hrel : ∀ w a b, AllSpace w → RelW w a b → core a = core b)
    (hnil : core [] = false)
    (hsp : ∀ c t, isSpaceChar c = true → core (c :: t) = false)
    (l : List Char) :
    reSearch core none (stripL l) = reSearch core none l := by
  unfold stripL
  obtain ⟨w, hdec, hw⟩ := stripTrail_decomp (l.dropWhile isSpaceChar)
  calc reSearch core none (stripTrailL (l.dropWhile isSpaceChar))
      = reSearch core none (stripTrailL (l.dropWhile isSpaceChar) ++ w) :=
        (reSearch_append_space hrel hnil hsp hw _ none).symm
    _ = reSearch core none (l.dropWhile isSpaceChar) := by rw [← hdec]
    _ = reSearch core none l := reSearch_dropWhile_lead hsp l

/-- Whitespace stripping cannot change whether `has_paging` finds a paging
clause: a match never starts in the stripped margins, and the trailing
whitespace block is indistinguishable from the end of the string for every
pattern. -/
theorem has_paging_pyStrip (s : String) : has_paging (pyStrip s) = has_paging s := by
  have h1 : ∀ core : List Char → Bool,
      (∀ w a b, AllSpace w → RelW w a b → core a = core b) →
      core [] = false →
      (∀ c t, isSpaceChar c = true → core (c :: t) = false) →
      reSearch core none (pyStrip s).data = reSearch core none s.data := by
    intro core hrel hnil hsp
    show reSearch core none (stripL s.data) = reSearch core none s.data
    exact reSearch_stripL hrel hnil hsp s.data
  unfold has_paging
  rw [h1 coreLimitOffset (fun w a b hw hr => coreLimitOffset_rel hw hr) rfl
        (fun c t hc => coreLimitOffset_space_head hc),
      h1 (coreKwNum limitKw) (fun w a b hw hr => coreKwNum_rel hw limitKw (by decide) hr) rfl
        (fun c t hc => coreKwNum_space_head hc (by decide)),
      h1 (coreKwNum topKw) (fun w a b hw hr => coreKwNum_rel hw topKw (by decide) hr) rfl
        (fun c t hc => coreKwNum_space_head hc (by decide)),
      h1 coreRownum (fun w a b hw hr => coreRownum_rel hw hr) rfl
        (fun c t hc => coreRownum_space_head hc)]

/-- C10.  For every query without an existing paging clause, when the
`page_size` argument is `None` or `0` and the instance's configured page
size is `0`, `page` returns a `ValueError` instance as its result value
instead of raising it. -/
theorem C10_page_returns_valueerror (dialect : String) (q : String) (off : Int) (ps : Option Int)
    (h1 : has_paging q = false) (h2 : ps = none ∨ ps = some 0) :
    page dialect 0 q off ps =
      .ok (.exc (.valueError "Paging is enabled but page_size is missing or set to 0")) := by
  have hstrip : has_paging (pyStrip q) = false := by rw [has_paging_pyStrip]; exact h1
  rcases h2 with rfl | rfl <;> simp [page, hstrip]

/-- Concrete instantiation of the zero-page-size theorem. -/
theorem C10_page_returns_valueerror_witness :
    page "mysql" 0 "SELECT 1" 0 none =
      .ok (.exc (.valueError "Paging is enabled but page_size is missing or set to 0")) :=
  C10_page_returns_valueerror "mysql" "SELECT 1" 0 none (by decide) (Or.inl rfl)

lemma digitChar_isDigit {m : Nat} (h : m < 10) : (Nat.digitChar m).isDigit = true := by
  interval_cases m <;> decide

lemma natDigitsF_all (fuel : Nat) : ∀ n c, c ∈ natDigitsF fuel n → c.isDigit = true := by
  induction fuel with
  | zero => intro n c hc; cases hc
  | succ f ih =>
    intro n c hc
    by_cases hn : n < 10
    · rw [natDigitsF, if_pos hn] at hc
      rw [List.mem_singleton] at hc
      subst hc
      exact digitChar_isDigit hn
    · rw [natDigitsF, if_neg hn] at hc
      rcases List.mem_append.mp hc with h1 | h1
      · exact ih _ _ h1
      · rw [List.mem_singleton] at h1
        subst h1
        exact digitChar_isDigit (Nat.mod_lt _ (by omega))

lemma natDigits_all {n : Nat} {c : Char} (hc : c ∈ natDigits n) : c.isDigit = true :=
  natDigitsF_all (n + 1) n c hc

lemma natDigits_ne_nil (n : Nat) : natDigits n ≠ [] := by
  unfold natDigits
  rw [natDigitsF]
  by_cases hn : n < 10
  · rw [if_pos hn]; simp
  · rw [if_neg hn]; simp

lemma natDigits_concat (n : Nat) :
    ∃ pre d, natDigits n = pre ++ [d] ∧ d.isDigit = true := by
  unfold natDigits
  rw [natDigitsF]
  by_cases hn : n < 10
  · exact ⟨[], _, by rw [if_pos hn]; rfl, digitChar_isDigit hn⟩
  · exact ⟨_, _, by rw [if_neg hn], digitChar_isDigit (Nat.mod_lt _ (by omega))⟩

lemma intStr_data_pos {i : Int} (h : 0 < i) : (intStr i).data = natDigits i.natAbs := by
  unfold intStr
  rw [if_neg (by omega)]

lemma intStr_concat (i : Int) :
    ∃ pre d, (intStr i).data = pre ++ [d] ∧ d.isDigit = true := by
  obtain ⟨pre, d, hd, hdig⟩ := natDigits_concat i.natAbs
  unfold intStr
  by_cases hi : i < 0
  · rw [if_pos hi]
    refine ⟨'-' :: pre, d, ?_, hdig⟩
    show '-' :: natDigits i.natAbs = ('-' :: pre) ++ [d]
    rw [hd, List.cons_append]
  · rw [if_neg hi]
    exact ⟨pre, d, hd, hdig⟩

lemma head_dropWhile_not {p : Char → Bool} :
    ∀ (l : List Char) {c t}, List.dropWhile p l = c :: t → p c = false := by
  intro l
  induction l with
  | nil => intro c t h; cases h
  | cons a l' ih =>
    intro c t h
    rw [List.dropWhile_cons] at h
    by_cases hp : p a = true
    · rw [if_pos hp] at h; exact ih h
    · rw [if_neg hp] at h
      injection h with h1 _
      subst h1
      exact Bool.eq_false_iff.mpr hp

lemma stripLead_noop {c : Char} {t : List Char} (hc : isSpaceChar c = false) :
    (c :: t).dropWhile isSpaceChar = c :: t := by
  rw [List.dropWhile_cons, if_neg (by rw [hc]; exact Bool.false_ne_true)]

lemma stripTrail_noop {x : List Char} {d : Char} (hd : isSpaceChar d = false) :
    stripTrailL (x ++ [d]) = x ++ [d] := by
  unfold stripTrailL
  have h : (x ++ [d]).reverse = d :: x.reverse := by simp
  rw [h, List.dropWhile_cons, if_neg (by rw [hd]; exact Bool.false_ne_true)]
  simp

lemma stripL_noop {c : Char} {t x : List Char} {d : Char} (hct : c :: t = x ++ [d])
    (hc : isSpaceChar c = false) (hd : isSpaceChar d = false) :
    stripL (c :: t) = c :: t := by
  unfold stripL
  rw [stripLead_noop hc, hct, stripTrail_noop hd]

lemma stripL_head {l : List Char} {c : Char} {t : List Char}
    (h : stripL l = c :: t) : isSpaceChar c = false := by
  unfold stripL stripTrailL at h
  have h2 : (l.dropWhile isSpaceChar).reverse.dropWhile isSpaceChar
      = (c :: t).reverse := by rw [← h, List.reverse_reverse]
  obtain ⟨u, hu⟩ := List.dropWhile_suffix (l := (l.dropWhile isSpaceChar).reverse)
    (p := isSpaceChar)
  rw [h2] at hu
  have h3 : c :: (t ++ u.reverse) = List.dropWhile isSpaceChar l := by
    simpa using congrArg List.reverse hu
  exact head_dropWhile_not _ h3.symm

lemma stripL_concat_shape (l : List Char) :
    stripL l = [] ∨ ∃ x d, stripL l = x ++ [d] ∧ isSpaceChar d = false := by
  unfold stripL stripTrailL
  cases h : (l.dropWhile isSpaceChar).reverse.dropWhile isSpaceChar with
  | nil => left; rfl
  | cons c' t'' =>
    right
    refine ⟨t''.reverse, c', ?_, head_dropWhile_not _ h⟩
    simp

lemma stripL_idem (l : List Char) : stripL (stripL l) = stripL l := by
  cases h : stripL l with
  | nil => rfl
  | cons c t =>
    have hc := stripL_head h
    rcases stripL_concat_shape l with h0 | ⟨x, d, hxd, hd⟩
    · rw [h0] at h; cases h
    · exact stripL_noop (h.symm.trans hxd) hc hd

lemma pyStrip_idem (s : String) : pyStrip (pyStrip s) = pyStrip s := by
  show (⟨stripL (stripL s.data)⟩ : String) = ⟨stripL s.data⟩
  rw [stripL_idem]

@[simp] lemma str_data_append (s t : String) : (s ++ t).data = s.data ++ t.data := rfl

lemma String_mk_data (s : String) : (⟨s.data⟩ : String) = s := by cases s; rfl

lemma String_eq_empty_of_data {s : String} (h : s.data = []) : s = "" := by
  cases s
  simp only at h
  rw [h]

lemma reSearch_cons_space_true {core : List Char → Bool} (hnil : core [] = false)
    {v : List Char} (hcore : core v = true) :
    ∀ (u : List Char) (p : Option Char), reSearch core p (u ++ ' ' :: v) = true := by
  intro u
  induction u with
  | nil =>
    intro p
    cases v with
    | nil => rw [hnil] at hcore; cases hcore
    | cons c cs =>
      show (bdyPrev p && core (' ' :: c :: cs) ||
        (bdyPrev (some ' ') && core (c :: cs) || reSearch core (some c) cs)) = true
      rw [show bdyPrev (some ' ') = true from by decide, hcore]
      simp
  | cons a u' ih =>
    intro p
    show (bdyPrev p && core (a :: (u' ++ ' ' :: v))
      || reSearch core (some a) (u' ++ ' ' :: v)) = true
    rw [ih (some a)]
    simp

lemma dropWhile_sat_append {p : Char → Bool} {xs : List Char}
    (hsat : ∀ c ∈ xs, p c = true) {y : Char} {z : List Char} (hy : p y = false) :
    (xs ++ y :: z).dropWhile p = y :: z := by
  induction xs with
  | nil =>
    rw [List.nil_append, List.dropWhile_cons, if_neg (by rw [hy]; exact Bool.false_ne_true)]
  | cons a xs' ih =>
    rw [List.cons_append, List.dropWhile_cons, if_pos (hsat a (List.mem_cons_self _ _))]
    exact ih (fun c hc => hsat c (List.mem_cons_of_mem _ hc))

lemma coreLimitOffset_clause {digits rem : List Char} (hne : digits ≠ [])
    (hdig : ∀ c ∈ digits, c.isDigit = true) :
    coreLimitOffset ('L':: 'I':: 'M':: 'I':: 'T':: ' ' :: (digits ++ ' ' :: rem)) = true := by
  obtain ⟨dh, dt, rfl⟩ := List.exists_cons_of_ne_nil hne
  have hdh : dh.isDigit = true := hdig dh (List.mem_cons_self _ _)
  have hdt : ∀ c ∈ dt, c.isDigit = true := fun c hc => hdig c (List.mem_cons_of_mem _ hc)
  have step1 : coreLimitOffset ('L':: 'I':: 'M':: 'I':: 'T':: ' ' :: (dh :: dt ++ ' ' :: rem))
      = (match pDigits1 ((dh :: (dt ++ ' ' :: rem)).dropWhile isSpaceChar) with
         | none => false
         | some s3 => wordBoundaryEnd s3 || offsetTail s3) := rfl
  rw [step1, List.dropWhile_cons,
    if_neg (by rw [digit_not_space hdh]; exact Bool.false_ne_true)]
  simp only [pDigits1, hdh, if_true]
  rw [dropWhile_sat_append hdt (by decide)]
  rw [show wordBoundaryEnd (' ' :: rem) = true from rfl]
  rfl

/-- C9 (amended).  When `has_paging` detects an existing paging clause in
the query, `page` returns the query unchanged apart from stripping leading
and trailing whitespace; and for the mysql and sqlite dialects with any
positive `page_size` argument, `page` is idempotent on every query whose
stripped form is non-empty (the whitespace-only counterexample below is the
only exception the code admits). -/
theorem C9_page_stripping_idempotent_amended (dialect : String) (sps : Int) (q : String) (off : Int) (ps : Option Int) :
    (has_paging q = true → page dialect sps q off ps = .ok (.str (pyStrip q))) ∧
    ((dialect = "mysql" ∨ dialect = "sqlite") → ∀ n, ps = some n → 0 < n →
      pyStrip q ≠ "" → ∀ r, page dialect sps q off ps = .ok (.str r) →
      page dialect sps r off ps = .ok (.str r)) := by
  constructor
  · intro h
    have hs : has_paging (pyStrip q) = true := by rw [has_paging_pyStrip]; exact h
    simp [page, hs]
  · intro hd n hps hn hq r hr
    subst hps
    by_cases hpag : has_paging (pyStrip q) = true
    · have hpage : page dialect sps q off (some n) = .ok (.str (pyStrip q)) := by
        simp [page, hpag]
      rw [hpage] at hr
      injection hr with hr1
      injection hr1 with hr2
      subst hr2
      have hps2 : pyStrip (pyStrip q) = pyStrip q := pyStrip_idem q
      have hpag2 : has_paging (pyStrip (pyStrip q)) = true := by rw [hps2]; exact hpag
      simp [page, hps2, hpag2, hpag]
    · have hneq : has_paging (pyStrip q) = false := Bool.eq_false_iff.mpr hpag
      have hnz : ¬(n = 0) := by omega
      have hd' : dialect = "mysql" ∨ dialect = "postgres" ∨ dialect = "sqlite" := by
        rcases hd with rfl | rfl
        · exact Or.inl rfl
        · exact Or.inr (Or.inr rfl)
      have hpage : page dialect sps q off (some n) =
          .ok (.str (pyStrip q ++ " LIMIT " ++ intStr n ++ " OFFSET " ++ intStr off)) := by
        simp [page, hneq, hnz, hd']
      rw [hpage] at hr
      injection hr with hr1
      injection hr1 with hr2
      subst hr2
      -- name the appended query and compute its data in head-normal shape
      have hrdata : (pyStrip q ++ " LIMIT " ++ intStr n ++ " OFFSET " ++ intStr off).data
          = (pyStrip q).data ++ ' ' :: ('L':: 'I':: 'M':: 'I':: 'T':: ' ' ::
            ((intStr n).data ++ ' ' :: ('O':: 'F':: 'F':: 'S':: 'E':: 'T':: ' ' ::
              (intStr off).data))) := by
        show ((((pyStrip q).data ++ (" LIMIT " : String).data) ++ (intStr n).data)
            ++ (" OFFSET " : String).data) ++ (intStr off).data = _
        rw [show (" LIMIT " : String).data = [' ','L','I','M','I','T',' '] from rfl,
          show (" OFFSET " : String).data = [' ','O','F','F','S','E','T',' '] from rfl]
        simp [List.append_assoc]
      -- digits of the page size
      have hdigits : (intStr n).data = natDigits n.natAbs := intStr_data_pos hn
      have hdig_all : ∀ c ∈ (intStr n).data, c.isDigit = true := by
        rw [hdigits]; exact fun c hc => natDigits_all hc
      have hdig_ne : (intStr n).data ≠ [] := by
        rw [hdigits]; exact natDigits_ne_nil _
      -- the appended query still matches the MySQL/SQLite LIMIT pattern
      have hsearch : reSearch coreLimitOffset none
          (pyStrip q ++ " LIMIT " ++ intStr n ++ " OFFSET " ++ intStr off).data = true := by
        rw [hrdata]
        exact reSearch_cons_space_true rfl (coreLimitOffset_clause hdig_ne hdig_all) _ none
      have hhp : has_paging (pyStrip q ++ " LIMIT " ++ intStr n ++ " OFFSET " ++ intStr off)
          = true := by
        unfold has_paging
        rw [hsearch]
        simp
      -- the appended query is already stripped
      have hstripr : pyStrip (pyStrip q ++ " LIMIT " ++ intStr n ++ " OFFSET " ++ intStr off)
          = pyStrip q ++ " LIMIT " ++ intStr n ++ " OFFSET " ++ intStr off := by
        obtain ⟨pre, dd, hpre, hdd⟩ := intStr_concat off
        cases hd0 : (pyStrip q).data with
        | nil => exact absurd (String_eq_empty_of_data hd0) hq
        | cons c t0 =>
          have hc : isSpaceChar c = false :=
            stripL_head (l := q.data) (show stripL q.data = c :: t0 from hd0)
          have hshape : (pyStrip q ++ " LIMIT " ++ intStr n ++ " OFFSET " ++ intStr off).data
              = c :: (t0 ++ ' ' :: ('L':: 'I':: 'M':: 'I':: 'T':: ' ' ::
                ((intStr n).data ++ ' ' :: ('O':: 'F':: 'F':: 'S':: 'E':: 'T':: ' ' ::
                  (intStr off).data)))) := by
            rw [hrdata, hd0]
            rfl
          have hshape2 : c :: (t0 ++ ' ' :: ('L':: 'I':: 'M':: 'I':: 'T':: ' ' ::
                ((intStr n).data ++ ' ' :: ('O':: 'F':: 'F':: 'S':: 'E':: 'T':: ' ' ::
                  (intStr off).data))))
              = (c :: (t0 ++ ' ' :: ('L':: 'I':: 'M':: 'I':: 'T':: ' ' ::
                ((intStr n).data ++ ' ' :: ('O':: 'F':: 'F':: 'S':: 'E':: 'T':: ' ' :: pre)))))
                ++ [dd] := by
            rw [hpre]
            simp [List.append_assoc]
          show (⟨stripL (pyStrip q ++ " LIMIT " ++ intStr n ++ " OFFSET " ++ intStr off).data⟩ : String) = _
          rw [hshape, stripL_noop hshape2 hc (digit_not_space hdd), ← hshape]
      show page dialect sps (pyStrip q ++ " LIMIT " ++ intStr n ++ " OFFSET " ++ intStr off)
          off (some n) = _
      simp [page, hstripr, hhp]

/-- C9 (counterexample).  The idempotence part of the claim fails for a
query that is empty (or whitespace only): the first application produces
`" LIMIT 5 OFFSET 0"` with a leading space, and the second application
strips that space, yielding a different string. -/
theorem C9_counterexample_empty_query :
    page "mysql" 0 "" 0 (some 5) = .ok (.str " LIMIT 5 OFFSET 0") ∧
    page "mysql" 0 " LIMIT 5 OFFSET 0" 0 (some 5) = .ok (.str "LIMIT 5 OFFSET 0") ∧
    (" LIMIT 5 OFFSET 0" : String) ≠ "LIMIT 5 OFFSET 0" :=
  ⟨rfl, rfl, by decide⟩

/-- Concrete instantiation of the amended paging theorem: paging a clean
query once and twice gives the same string, and a query that already pages
comes back stripped for any dialect. -/
theorem C9_page_stripping_idempotent_amended_witness :
    page "mysql" 0 "SELECT 1" 0 (some 5) = .ok (.str "SELECT 1 LIMIT 5 OFFSET 0") ∧
    page "mysql" 0 "SELECT 1 LIMIT 5 OFFSET 0" 0 (some 5) =
      .ok (.str "SELECT 1 LIMIT 5 OFFSET 0") ∧
    page "oracle" 3 "SELECT 1 LIMIT 5" 0 none = .ok (.str "SELECT 1 LIMIT 5") := by
  have h2 := (C9_page_stripping_idempotent_amended "mysql" 0 "SELECT 1" 0 (some 5)).2
    (Or.inl rfl) 5 rfl (by decide) (by decide)
  have h1 := (C9_page_stripping_idempotent_amended "oracle" 3 "SELECT 1 LIMIT 5" 0 none).1
    (by decide)
  refine ⟨rfl, ?_, ?_⟩
  · exact h2 "SELECT 1 LIMIT 5 OFFSET 0" rfl
  · exact h1.trans (by decide)
